import Mathlib

/-!
# AliceVision: kernel adaptors, localization data, Alembic points, descriptor loading

The file has three parts, each with its definitions first and its theorems at the end of
the file: the LO-RANSAC kernel adaptors, the localization data with the Alembic point
reader, and the descriptor loader.

## LO-RANSAC kernel adaptors (`robustEstimation/LORansacKernelAdaptor.hpp`)

Shallow embedding of `LORansacGenericKernel`, `KernelAdaptorLoRansac` and
`KernelAdaptorResectionLORansac_K`.

* `double` is modelled by `ℚ` (exact arithmetic: rounding, overflow, infinities and NaN are
  outside the model; `1 / 0` is `0` in `ℚ`).
* A `Mat` is the list of its columns; `Mat.col` is `none` for a column index that is out of
  range (the access Eigen asserts on).
* `std::vector` is a `List`; template parameters (`ErrorT`, `SolverLS`) are fields of the
  kernel structures.
-/

namespace aliceVision
namespace robustEstimation

/-- A column vector of doubles. -/
abbrev Vec := List ℚ

/-- A dense matrix, stored as the list of its columns. -/
abbrev Mat := List Vec

/-- Number of columns of a matrix (`Mat::cols()`). -/
def Mat.cols (m : Mat) : Nat := m.length

/-- Column access `m.col(i)`: `none` when `i` is not a column index of `m`. -/
def Mat.col (m : Mat) (i : Nat) : Option Vec := m[i]?

/-- The call `v.resize(n)` of `std::vector<double>`: the first `n` entries are kept, missing
entries are value-initialised to `0`. -/
def resize (v : List ℚ) (n : Nat) : List ℚ :=
  v.take n ++ List.replicate (n - v.length) 0

/-- Modelled from the spec: `ExtractColumns` (declared in `numeric/numeric.hpp`, which is not
part of the sources at hand) draws the columns named by the index list, in the order of the
list: column `k` of the result is column `columns[k]` of `A`. An index that is not a column
of `A` makes the extraction fail. -/
def ExtractColumns (A : Mat) : List Nat → Option Mat
  | [] => some []
  | c :: columns =>
    match Mat.col A c, ExtractColumns A columns with
    | some v, some rest => some (v :: rest)
    | _, _ => none

/-- The abstract class `LORansacGenericKernel<minSample, minSampleLS, Model>`: the two
constants and the pure virtual members, each with the default arguments of its declaration
(a call through the interface takes its defaults from here). `models` and `vec_weights` are
passed in and returned; `Errors` returns `vec_errors`. -/
structure LORansacGenericKernel (Model : Type) where
  MINIMUM_SAMPLES : Nat
  MINIMUM_LSSAMPLES : Nat
  Fit : List Nat → List Model → List Model
  FitLS : List Nat → List Model → (weights : Option (List ℚ) := none) → List Model
  computeWeights : Model → List Nat → List ℚ → (eps : ℚ := 0.001) → List ℚ
  Error : Nat → Model → ℚ
  Errors : Model → List ℚ → List ℚ
  Unnormalize : Model → Model
  NumSamples : Nat

/-- The class `KernelAdaptorLoRansac<SolverArg, ErrorArg, UnnormalizerArg, ModelArg, SolverLSArg>`:
the two data arrays held by the base kernel, the two sample-count constants, the error functor
`ErrorT::Error` and the least-squares solver `SolverLS::Solve` (which receives the `models`
vector and returns it as the solver leaves it). -/
structure KernelAdaptorLoRansac (Model : Type) where
  x1_ : Mat
  x2_ : Mat
  MINIMUM_SAMPLES : Nat
  MINIMUM_LSSAMPLES : Nat
  Error : Model → Vec → Vec → ℚ
  Solve : Mat → Mat → List Model → Option (List ℚ) → List Model

/-- The class `KernelAdaptorResectionLORansac_K<SolverArg, ErrorArg, UnnormalizerArg, SolverLSArg, ModelArg>`:
the 2D and 3D data arrays held by the base kernel, the two sample-count constants, the error
functor and the least-squares solver. -/
structure KernelAdaptorResectionLORansac_K (Model : Type) where
  x2d_ : Mat
  x3D_ : Mat
  MINIMUM_SAMPLES : Nat
  MINIMUM_LSSAMPLES : Nat
  Error : Model → Vec → Vec → ℚ
  Solve : Mat → Mat → List Model → Option (List ℚ) → List Model

variable {Model : Type}

/-- Modelled from the spec: `NumSamples() -> N`, the total correspondence count (defined in the
base kernel, `ACRansacKernelAdaptator.hpp`, which is not part of the sources at hand). -/
def KernelAdaptorLoRansac.NumSamples (k : KernelAdaptorLoRansac Model) : Nat :=
  Mat.cols k.x1_

/-- Modelled from the spec: `NumSamples() -> N`, the total correspondence count (defined in the
base kernel, `ACRansacKernelAdaptator.hpp`, which is not part of the sources at hand). -/
def KernelAdaptorResectionLORansac_K.NumSamples (k : KernelAdaptorResectionLORansac_K Model) : Nat :=
  Mat.cols k.x2d_

/-- Member `KernelAdaptorLoRansac::FitLS`: both arrays are reduced to the columns named by
`inliers`, then the least-squares solver runs on them with the caller's `models` and
`weights` (`none` is the null pointer, the default). The result is `none` when a column
extraction fails, else the `models` vector as the solver leaves it. -/
def KernelAdaptorLoRansac.FitLS (k : KernelAdaptorLoRansac Model) (inliers : List Nat)
    (models : List Model) (weights : Option (List ℚ) := none) : Option (List Model) :=
  match ExtractColumns k.x1_ inliers with
  | none => none
  | some x1 =>
    match ExtractColumns k.x2_ inliers with
    | none => none
    | some x2 => some (k.Solve x1 x2 models weights)

/-- Member `KernelAdaptorResectionLORansac_K::FitLS`: the 2D and the 3D array are reduced to
the columns named by `inliers`, then the least-squares solver runs on them. -/
def KernelAdaptorResectionLORansac_K.FitLS (k : KernelAdaptorResectionLORansac_K Model)
    (inliers : List Nat) (models : List Model) (weights : Option (List ℚ) := none) :
    Option (List Model) :=
  match ExtractColumns k.x2d_ inliers with
  | none => none
  | some x1 =>
    match ExtractColumns k.x3D_ inliers with
    | none => none
    | some x2 => some (k.Solve x1 x2 models weights)

/-- The `for` loop of `KernelAdaptorLoRansac::computeWeights`, from the iteration `sample` on,
with `vec_weights` as the state. -/
def KernelAdaptorLoRansac.computeWeightsLoop (k : KernelAdaptorLoRansac Model) (model : Model)
    (inliers : List Nat) (eps : ℚ) (sample : Nat) (vec_weights : List ℚ) : Option (List ℚ) :=
  if h : sample < inliers.length then
    let idx := inliers[sample]
    match Mat.col k.x1_ idx, Mat.col k.x2_ idx with
    | some a, some b =>
      let vec_weights := vec_weights.set sample (k.Error model a b)
      let vec_weights :=
        vec_weights.set sample (1 / (max eps (vec_weights.getD sample 0)) ^ 2)
      KernelAdaptorLoRansac.computeWeightsLoop k model inliers eps (sample + 1) vec_weights
    | _, _ => none
  else some vec_weights
termination_by inliers.length - sample

/-- Member `KernelAdaptorLoRansac::computeWeights`; `vec_weights` is the vector the caller
passes in, the result is that vector on return (`none` when a column read fails). -/
def KernelAdaptorLoRansac.computeWeights (k : KernelAdaptorLoRansac Model) (model : Model)
    (inliers : List Nat) (vec_weights : List ℚ) (eps : ℚ := 0.001) : Option (List ℚ) :=
  let numInliers := inliers.length
  let vec_weights := resize vec_weights numInliers
  KernelAdaptorLoRansac.computeWeightsLoop k model inliers eps 0 vec_weights

/-- The `for` loop of `KernelAdaptorResectionLORansac_K::computeWeights`, from the iteration
`sample` on, with `vec_weights` as the state. -/
def KernelAdaptorResectionLORansac_K.computeWeightsLoop
    (k : KernelAdaptorResectionLORansac_K Model) (model : Model)
    (inliers : List Nat) (eps : ℚ) (sample : Nat) (vec_weights : List ℚ) : Option (List ℚ) :=
  if h : sample < inliers.length then
    let idx := inliers[sample]
    match Mat.col k.x2d_ idx, Mat.col k.x3D_ idx with
    | some a, some b =>
      let vec_weights := vec_weights.set sample (k.Error model a b)
      let vec_weights :=
        vec_weights.set sample (1 / (max eps (vec_weights.getD sample 0)) ^ 2)
      KernelAdaptorResectionLORansac_K.computeWeightsLoop k model inliers eps (sample + 1)
        vec_weights
    | _, _ => none
  else some vec_weights
termination_by inliers.length - sample

/-- Member `KernelAdaptorResectionLORansac_K::computeWeights`. -/
def KernelAdaptorResectionLORansac_K.computeWeights
    (k : KernelAdaptorResectionLORansac_K Model) (model : Model)
    (inliers : List Nat) (vec_weights : List ℚ) (eps : ℚ := 0.001) : Option (List ℚ) :=
  let numInliers := inliers.length
  let vec_weights := resize vec_weights numInliers
  KernelAdaptorResectionLORansac_K.computeWeightsLoop k model inliers eps 0 vec_weights

/-! ## Concrete kernels used as test inputs -/

/-- A two-view kernel over three correspondences of 1-vectors; the model is a scale factor
`m` and the error of a correspondence `(a, b)` is `|m * a - b|`. The solver appends the
number of columns it was given. -/
def twoViewKernel : KernelAdaptorLoRansac ℚ where
  x1_ := [[0], [1], [2]]
  x2_ := [[0], [3], [4]]
  MINIMUM_SAMPLES := 1
  MINIMUM_LSSAMPLES := 2
  Error := fun m a b => |m * a.headD 0 - b.headD 0|
  Solve := fun x1 _ models _ => models ++ [(x1.length : ℚ)]

/-- A resection kernel over three 2D-3D correspondences; the model is a scale factor `m` and
the error of a correspondence `(a, b)` is `|m * a₀ - b₀|` on the first coordinates. The
solver appends the number of columns it was given. -/
def resectionKernel : KernelAdaptorResectionLORansac_K ℚ where
  x2d_ := [[0, 0], [1, 1], [2, 1]]
  x3D_ := [[0, 0, 1], [3, 1, 1], [4, 1, 2]]
  MINIMUM_SAMPLES := 3
  MINIMUM_LSSAMPLES := 6
  Error := fun m a b => |m * a.headD 0 - b.headD 0|
  Solve := fun x1 _ models _ => models ++ [(x1.length : ℚ)]

/-! ## Proof devices -/

/-- The weight `1 / max(eps, e)²` given to a residual `e`. -/
def weightOf (eps e : ℚ) : ℚ := 1 / (max eps e) ^ 2

/-- Reference description of the weights of an index list: per index, both columns are
read and the weight of their error is produced; a failed column read fails the whole. -/
def weightsFrom (c1 c2 : Nat → Option Vec) (E : Vec → Vec → ℚ) (eps : ℚ) :
    List Nat → Option (List ℚ)
  | [] => some []
  | idx :: rest =>
    match c1 idx, c2 idx with
    | some a, some b => (weightsFrom c1 c2 E eps rest).map (fun ws => weightOf eps (E a b) :: ws)
    | _, _ => none

end robustEstimation

/-! # Alembic import (`sfm/AlembicImporter.cpp`) and localization data (`SfMLocalizer.hpp`)

`float` and `double` are modelled by `ℚ`, `IndexT`, `uint32` and `size_t` by `Nat` (no
wrap-around), a `std::map`/`Hash_Map` by an association list, an Alembic array sample by a
`List`. An array read `a[i]` is `none` when `i` is not an index of `a`; a function that makes
such a read has the result `none`. A property that is present has the type its reader asks
for. -/

namespace sfm

/-- The index type `IndexT`. -/
abbrev IndexT := Nat

/-- A 2-vector of doubles. -/
abbrev Vec2 := ℚ × ℚ

/-- A 3-vector of doubles. -/
abbrev Vec3 := ℚ × ℚ × ℚ

/-- The Alembic 4x4 matrix `M44d`, as its rows. -/
abbrev M44d := List (List ℚ)

/-- The bit set `ESfMData` of the parts to read. -/
abbrev ESfMData := Nat

/-- The enumeration `feature::EImageDescriberType`: the value `UNKNOWN` named in the source,
and `ofCode c` for `static_cast<feature::EImageDescriberType>(c)`. -/
inductive EImageDescriberType where
  | UNKNOWN
  | ofCode (c : Nat)
deriving DecidableEq

/-- An `Observation`: the 2D position `x` and the feature index `id_feat`. -/
structure Observation where
  x : Vec2
  id_feat : IndexT
deriving DecidableEq

/-- A `Landmark`: position, describer type, colour (`none` is the colour the constructor
gives; the narrowing of the three floats to `unsigned char` is outside the model) and the
observations keyed by view index. -/
structure Landmark where
  X : Vec3
  descType : EImageDescriberType
  rgb : Option (ℚ × ℚ × ℚ) := none
  observations : List (IndexT × Observation) := []
deriving DecidableEq

/-- The container `Landmarks`, keyed by landmark index. -/
abbrev Landmarks := List (IndexT × Landmark)

/-- The assignment `m[k] = v` on a map: the entry of key `k` is replaced, or added when the
key is absent. -/
def mapAssign {V : Type} : List (IndexT × V) → IndexT → V → List (IndexT × V)
  | [], k, v => [(k, v)]
  | (k0, v0) :: rest, k, v =>
    if k0 = k then (k, v) :: rest else (k0, v0) :: mapAssign rest k v

/-- The constant `UndefinedIndexT`, the largest value of `IndexT`. -/
def UndefinedIndexT : IndexT := 4294967295

/-- A camera pose `Pose3`, built from a rotation (as its rows) and a centre. -/
structure Pose3 where
  rotation : List (List ℚ)
  center : Vec3
deriving DecidableEq

/-- The enumeration `ERigSubPoseStatus`: the two values named in the source, and every other
value. -/
inductive ERigSubPoseStatus where
  | UNINITIALIZED
  | ESTIMATED
  | other (value : Nat)
deriving DecidableEq

/-- A `RigSubPose`: its status and its pose. -/
structure RigSubPose where
  status : ERigSubPoseStatus
  pose : Pose3
deriving DecidableEq

/-- A `Rig`, as the sequence of its sub-poses; `getSubPose(i)` is the entry `i`. -/
abbrev Rig := List RigSubPose

/-- A `View`, as the arguments of its constructor, and the resection index (`none` is the
value the constructor gives). -/
structure View where
  imagePath : List Char
  viewId : IndexT
  intrinsicId : IndexT
  poseId : IndexT
  width : Nat
  height : Nat
  rigId : IndexT
  subPoseId : IndexT
  resectionId : Option IndexT := none
deriving DecidableEq

/-- The intrinsic object that `readCamera` stores, as the arguments of the calls that build
it: the type string handed to `createPinholeIntrinsic` (`none` is the string of
`PINHOLE_CAMERA`), `setWidth`, `setHeight` and `updateFromParams`. -/
structure Pinhole where
  intrinsicType : Option (List Char)
  width : Nat
  height : Nat
  params : List ℚ
deriving DecidableEq

/-- The scene `SfMData`; `structure_` is its member `structure`, the landmarks. -/
structure SfMData where
  structure_ : Landmarks
  views : List (IndexT × View) := []
  intrinsics : List (IndexT × Pinhole) := []
  poses : List (IndexT × Pose3) := []
  rigs : List (IndexT × Rig) := []
deriving DecidableEq

/-- An Alembic compound property `ICompoundProperty`, reduced to the properties the point
reader and the camera reader ask for and the number of its other properties. A scalar
property holds the value that `getAbcProp` delivers for it. -/
structure ICompoundProperty where
  color : Option (List (ℚ × ℚ × ℚ)) := none
  mvg_describerType : Option (List Nat) := none
  mvg_visibilitySize : Option (List Nat) := none
  mvg_visibilityIds : Option (List Nat) := none
  mvg_visibilityFeatPos : Option (List ℚ) := none
  mvg_imagePath : Option (List Char) := none
  mvg_viewId : Option Nat := none
  mvg_poseId : Option Nat := none
  mvg_intrinsicId : Option Nat := none
  mvg_rigId : Option Nat := none
  mvg_subPoseId : Option Nat := none
  mvg_resectionId : Option Nat := none
  mvg_sensorSizePix : Option (List Nat) := none
  mvg_intrinsicType : Option (List Char) := none
  mvg_intrinsicParams : Option (List ℚ) := none
  otherProperties : Nat := 0

/-- The call `getNumProperties()`. -/
def ICompoundProperty.getNumProperties (p : ICompoundProperty) : Nat :=
  (if p.color.isSome then 1 else 0) + (if p.mvg_describerType.isSome then 1 else 0)
    + (if p.mvg_visibilitySize.isSome then 1 else 0)
    + (if p.mvg_visibilityIds.isSome then 1 else 0)
    + (if p.mvg_visibilityFeatPos.isSome then 1 else 0)
    + (if p.mvg_imagePath.isSome then 1 else 0) + (if p.mvg_viewId.isSome then 1 else 0)
    + (if p.mvg_poseId.isSome then 1 else 0) + (if p.mvg_intrinsicId.isSome then 1 else 0)
    + (if p.mvg_rigId.isSome then 1 else 0) + (if p.mvg_subPoseId.isSome then 1 else 0)
    + (if p.mvg_resectionId.isSome then 1 else 0)
    + (if p.mvg_sensorSizePix.isSome then 1 else 0)
    + (if p.mvg_intrinsicType.isSome then 1 else 0)
    + (if p.mvg_intrinsicParams.isSome then 1 else 0) + p.otherProperties

/-- What `getAbcUserProperties` reads of a schema: its user properties and its
`ArbGeomParams`; `none` is a compound property that is not valid. -/
structure AbcSchema where
  userProperties : Option ICompoundProperty
  arbGeomParams : Option ICompoundProperty

/-- The schema `IPointsSchema` of a point object: the positions of its sample and its
properties. -/
structure IPointsSchema extends AbcSchema where
  positions : List Vec3

/-- The function `getAbcUserProperties`: the user properties when valid and not empty, else the
`ArbGeomParams`. -/
def getAbcUserProperties (schema : AbcSchema) : Option ICompoundProperty :=
  match schema.userProperties with
  | some userProps =>
    if userProps.getNumProperties ≠ 0 then some userProps else schema.arbGeomParams
  | none => schema.arbGeomParams

/-- The default-constructed `Landmark` that `structure[key]` adds for an absent key (its
field values are fixed by a header that is not at hand; the key is present wherever
`readPointCloud` makes this access). -/
def Landmark.default : Landmark := { X := (0, 0, 0), descType := EImageDescriberType.UNKNOWN }

/-- The body of the first loop of `readPointCloud` for the point `point3d_i` at `pos_i`: the
landmark built from the position, with the colour and the describer type when these samples
are kept. -/
def readPointCloud.landmark (pos_i : Vec3) (sampleColors : Option (List (ℚ × ℚ × ℚ)))
    (sampleDescs : Option (List Nat)) (point3d_i : Nat) : Option Landmark :=
  let landmark : Landmark := { X := pos_i, descType := EImageDescriberType.UNKNOWN }
  match sampleColors with
  | some colors =>
    match colors[point3d_i]? with
    | none => none
    | some color_i =>
      let landmark := { landmark with rgb := some color_i }
      match sampleDescs with
      | some descs =>
        match descs[point3d_i]? with
        | none => none
        | some descType_i =>
          some { landmark with descType := EImageDescriberType.ofCode descType_i }
      | none => some landmark
  | none =>
    match sampleDescs with
    | some descs =>
      match descs[point3d_i]? with
      | none => none
      | some descType_i =>
        some { landmark with descType := EImageDescriberType.ofCode descType_i }
    | none => some landmark

/-- The first loop of `readPointCloud`, from the iteration `point3d_i` on: the landmark of
every point is stored under the key `nbPointsInit + point3d_i`. -/
def readPointCloud.landmarkLoop (positions : List Vec3)
    (sampleColors : Option (List (ℚ × ℚ × ℚ))) (sampleDescs : Option (List Nat))
    (nbPointsInit : Nat) (point3d_i : Nat) (structure_ : Landmarks) : Option Landmarks :=
  if h : point3d_i < positions.length then
    match readPointCloud.landmark positions[point3d_i] sampleColors sampleDescs point3d_i with
    | none => none
    | some landmark =>
      readPointCloud.landmarkLoop positions sampleColors sampleDescs nbPointsInit
        (point3d_i + 1) (mapAssign structure_ (nbPointsInit + point3d_i) landmark)
  else some structure_
termination_by positions.length - point3d_i

/-- The inner loop of the visibility part of `readPointCloud`, from the counters `obs_i` and
`obsGlobal_i` on: each round reads the entries `obsGlobal_i` and `obsGlobal_i + 1` of both
arrays and stores the observation under the view index. The result is the final
`obsGlobal_i` and the landmark. -/
def readPointCloud.observationLoop (sampleVisibilityIds : List Nat) (sampleFeatPos2d : List ℚ)
    (visibilitySize : Nat) (obs_i obsGlobal_i : Nat) (landmark : Landmark) :
    Option (Nat × Landmark) :=
  if obs_i < visibilitySize * 2 then
    match sampleVisibilityIds[obsGlobal_i]?, sampleVisibilityIds[obsGlobal_i + 1]?,
      sampleFeatPos2d[obsGlobal_i]?, sampleFeatPos2d[obsGlobal_i + 1]? with
    | some viewID, some featID, some posX, some posY =>
      let landmark := { landmark with
        observations := mapAssign landmark.observations viewID
          { x := (posX, posY), id_feat := featID } }
      readPointCloud.observationLoop sampleVisibilityIds sampleFeatPos2d visibilitySize
        (obs_i + 2) (obsGlobal_i + 2) landmark
    | _, _, _, _ => none
  else some (obsGlobal_i, landmark)
termination_by visibilitySize * 2 - obs_i

/-- The outer loop of the visibility part of `readPointCloud`, from the point `point3d_i`
and the counter `obsGlobal_i` on. -/
def readPointCloud.visibilityLoop (positions : List Vec3) (sampleVisibilitySize : List Nat)
    (sampleVisibilityIds : List Nat) (sampleFeatPos2d : List ℚ) (nbPointsInit : Nat)
    (point3d_i obsGlobal_i : Nat) (structure_ : Landmarks) : Option Landmarks :=
  if point3d_i < positions.length then
    let landmark := (structure_.lookup (nbPointsInit + point3d_i)).getD Landmark.default
    match sampleVisibilitySize[point3d_i]? with
    | none => none
    | some visibilitySize =>
      match readPointCloud.observationLoop sampleVisibilityIds sampleFeatPos2d visibilitySize
          0 obsGlobal_i landmark with
      | none => none
      | some (obsGlobal_i, landmark) =>
        readPointCloud.visibilityLoop positions sampleVisibilitySize sampleVisibilityIds
          sampleFeatPos2d nbPointsInit (point3d_i + 1) obsGlobal_i
          (mapAssign structure_ (nbPointsInit + point3d_i) landmark)
  else some structure_
termination_by positions.length - point3d_i

/-- The colour sample of `readPointCloud`: the property `color` of the `ArbGeomParams`, dropped
(`sampleColors.reset()`) when its size is not the number of positions. -/
def readPointCloud.sampleColors (arbGeom : Option ICompoundProperty) (positions : List Vec3) :
    Option (List (ℚ × ℚ × ℚ)) :=
  match arbGeom with
  | some g =>
    match g.color with
    | some colors => if colors.length ≠ positions.length then none else some colors
    | none => none
  | none => none

/-- The describer-type sample of `readPointCloud`: the property `mvg_describerType` of the
user properties, dropped when its size is not the number of positions. -/
def readPointCloud.sampleDescs (userProps : Option ICompoundProperty) (positions : List Vec3) :
    Option (List Nat) :=
  match userProps with
  | some u =>
    match u.mvg_describerType with
    | some descs => if descs.length ≠ positions.length then none else some descs
    | none => none
  | none => none

/-- The function `readPointCloud`: the returned flag and the scene as the call leaves it
(`mat` and `flags_part` are not used by the function). -/
def readPointCloud (ms : IPointsSchema) (mat : M44d) (sfmdata : SfMData)
    (flags_part : ESfMData) : Option (Bool × SfMData) :=
  let positions := ms.positions
  let userProps := getAbcUserProperties ms.toAbcSchema
  let arbGeom := ms.arbGeomParams
  let sampleColors := readPointCloud.sampleColors arbGeom positions
  let sampleDescs := readPointCloud.sampleDescs userProps positions
  let nbPointsInit := sfmdata.structure_.length
  match readPointCloud.landmarkLoop positions sampleColors sampleDescs nbPointsInit 0
      sfmdata.structure_ with
  | none => none
  | some structure_ =>
    let sfmdata : SfMData := { sfmdata with structure_ := structure_ }
    match userProps with
    | some u =>
      match u.mvg_visibilitySize, u.mvg_visibilityIds, u.mvg_visibilityFeatPos with
      | some sampleVisibilitySize, some sampleVisibilityIds, some sampleFeatPos2d =>
        if positions.length ≠ sampleVisibilitySize.length then some (false, sfmdata)
        else if sampleVisibilityIds.length ≠ sampleFeatPos2d.length then some (false, sfmdata)
        else
          match readPointCloud.visibilityLoop positions sampleVisibilitySize
              sampleVisibilityIds sampleFeatPos2d nbPointsInit 0 0 sfmdata.structure_ with
          | none => none
          | some structure_ => some (true, { sfmdata with structure_ := structure_ })
      | _, _, _ => some (true, sfmdata)
    | none => some (true, sfmdata)

/-- The enumerator `ESfMData::VIEWS` (a single bit of the flag set). -/
def ESfMData.VIEWS : ESfMData := 1

/-- The enumerator `ESfMData::EXTRINSICS` (a single bit of the flag set). -/
def ESfMData.EXTRINSICS : ESfMData := 2

/-- The enumerator `ESfMData::INTRINSICS` (a single bit of the flag set). -/
def ESfMData.INTRINSICS : ESfMData := 4

/-- The test `flags_part & flag` used as a condition. -/
def ESfMData.test (flags_part flag : ESfMData) : Bool := (flags_part &&& flag) != 0

/-- The schema `ICameraSchema` of a camera object: its properties (the camera sample itself
is read by `readCamera` but not used). -/
structure ICameraSchema extends AbcSchema

/-- The local variables of `readCamera` that the property block fills. -/
structure readCamera.Locals where
  imagePath : List Char
  sensorSize_pix : List Nat
  mvg_intrinsicType : Option (List Char)
  mvg_intrinsicParams : List ℚ
  viewId : IndexT
  poseId : IndexT
  intrinsicId : IndexT
  rigId : IndexT
  subPoseId : IndexT
  resectionId : IndexT

/-- The local variables of `readCamera` after the property block: their initial values, each
replaced by its property when the user properties are valid, `VIEWS` or `INTRINSICS` is asked
for and the property is present. -/
def readCamera.locals (userProps : Option ICompoundProperty) (sfmData : SfMData)
    (flags_part : ESfMData) : readCamera.Locals :=
  let init : readCamera.Locals :=
    { imagePath := [], sensorSize_pix := [0, 0], mvg_intrinsicType := none,
      mvg_intrinsicParams := [], viewId := sfmData.views.length,
      poseId := sfmData.views.length, intrinsicId := sfmData.intrinsics.length,
      rigId := UndefinedIndexT, subPoseId := UndefinedIndexT,
      resectionId := UndefinedIndexT }
  match userProps with
  | some u =>
    if ESfMData.test flags_part ESfMData.VIEWS || ESfMData.test flags_part ESfMData.INTRINSICS
    then
      { imagePath := u.mvg_imagePath.getD init.imagePath,
        sensorSize_pix := u.mvg_sensorSizePix.getD init.sensorSize_pix,
        mvg_intrinsicType :=
          match u.mvg_intrinsicType with
          | some t => some t
          | none => init.mvg_intrinsicType,
        mvg_intrinsicParams := u.mvg_intrinsicParams.getD init.mvg_intrinsicParams,
        viewId := u.mvg_viewId.getD init.viewId,
        poseId := u.mvg_poseId.getD init.poseId,
        intrinsicId := u.mvg_intrinsicId.getD init.intrinsicId,
        rigId := u.mvg_rigId.getD init.rigId,
        subPoseId := u.mvg_subPoseId.getD init.subPoseId,
        resectionId := u.mvg_resectionId.getD init.resectionId }
    else init
  | none => init

/-- The view that `readCamera` builds: the constructor call, followed by `setResectionId` when
`VIEWS` is asked for. The two reads `sensorSize_pix.at(0)` and `sensorSize_pix.at(1)` throw
(`none`) when the vector is too short. -/
def readCamera.view (l : readCamera.Locals) (flags_part : ESfMData) : Option View :=
  match l.sensorSize_pix[0]?, l.sensorSize_pix[1]? with
  | some width, some height =>
    let view : View :=
      { imagePath := l.imagePath, viewId := l.viewId, intrinsicId := l.intrinsicId,
        poseId := l.poseId, width := width, height := height, rigId := l.rigId,
        subPoseId := l.subPoseId }
    if ESfMData.test flags_part ESfMData.VIEWS then
      some { view with resectionId := some l.resectionId }
    else some view
  | _, _ => none

/-- The pose that `readCamera` builds from the matrix `mat`: the upper 3x3 block with its
second and third row negated (the product with `diag(1, -1, -1)`), and the fourth row as
centre. `M44d` is a 4x4 matrix; an entry missing from the list reads as `0`. -/
def readCamera.pose (mat : M44d) : Pose3 :=
  let m := fun (i j : Nat) => (mat.getD i []).getD j 0
  { rotation :=
      [[1 * m 0 0, 1 * m 0 1, 1 * m 0 2],
        [-1 * m 1 0, -1 * m 1 1, -1 * m 1 2],
        [-1 * m 2 0, -1 * m 2 1, -1 * m 2 2]],
    center := (m 3 0, m 3 1, m 3 2) }

/-- The `EXTRINSICS` branch of `readCamera`: for a view that is part of a rig the sub-pose is
written when its status is `UNINITIALIZED`; for any other view the pose is set in the
scene. The accesses `getRigs().at(rigId)` and `getSubPose(subPoseId)` have no result when
the rig or the sub-pose does not exist. -/
def readCamera.extrinsics (isPartOfRig : View → Bool)
    (setPose : SfMData → View → Pose3 → SfMData) (view : View) (pose : Pose3)
    (sfmData : SfMData) : Option SfMData :=
  if isPartOfRig view then
    match sfmData.rigs.lookup view.rigId with
    | none => none
    | some rig =>
      match rig[view.subPoseId]? with
      | none => none
      | some subPose =>
        if subPose.status = ERigSubPoseStatus.UNINITIALIZED then
          some { sfmData with
            rigs := mapAssign sfmData.rigs view.rigId
              (rig.set view.subPoseId { status := ERigSubPoseStatus.ESTIMATED, pose := pose }) }
        else some sfmData
  else some (setPose sfmData view pose)

/-- The `INTRINSICS` block and the `VIEWS` block of `readCamera`: the intrinsic object is
stored under `intrinsicId` when `INTRINSICS` is asked for, the view under `viewId` when
`VIEWS` is asked for. -/
def readCamera.store (l : readCamera.Locals) (view : View) (sfmData : SfMData)
    (flags_part : ESfMData) : SfMData :=
  let sfmData : SfMData :=
    if ESfMData.test flags_part ESfMData.INTRINSICS then
      { sfmData with
        intrinsics := mapAssign sfmData.intrinsics l.intrinsicId
          { intrinsicType := l.mvg_intrinsicType, width := view.width,
            height := view.height, params := l.mvg_intrinsicParams } }
    else sfmData
  if ESfMData.test flags_part ESfMData.VIEWS then
    { sfmData with views := mapAssign sfmData.views l.viewId view }
  else sfmData

/-- The function `readCamera`: the returned flag and the scene as the call leaves it; `none`
when an exception leaves the function (or the assertion fails). `View::isPartOfRig` and
`SfMData::setPose` are defined in headers that are not at hand and are parameters; `NDEBUG`
tells whether `assert` is compiled out (the assertion on the size of `sensorSize_pix` can
only fail when the property was read, the initial vector having two entries). -/
def readCamera (isPartOfRig : View → Bool) (setPose : SfMData → View → Pose3 → SfMData)
    (NDEBUG : Bool) (camera : ICameraSchema) (mat : M44d) (sfmData : SfMData)
    (flags_part : ESfMData) (sampleFrame : Nat := 0) : Option (Bool × SfMData) :=
  let userProps := getAbcUserProperties camera.toAbcSchema
  let l := readCamera.locals userProps sfmData flags_part
  if NDEBUG = false ∧ l.sensorSize_pix.length ≠ 2 then none
  else
    match readCamera.view l flags_part with
    | none => none
    | some view =>
      let sfmData := readCamera.store l view sfmData flags_part
      if ESfMData.test flags_part ESfMData.EXTRINSICS then
        match readCamera.extrinsics isPartOfRig setPose view (readCamera.pose mat) sfmData with
        | none => none
        | some sfmData => some (true, sfmData)
      else some (true, sfmData)

/-! ## Concrete point objects used as test inputs -/

/-- A point object with one position and no property. -/
def onePoint : IPointsSchema where
  userProperties := none
  arbGeomParams := none
  positions := [(1, 2, 3)]

/-- A point object with one position whose visibility properties pass both size checks (one
entry in `mvg_visibilitySize` for one position, `mvg_visibilityIds` and
`mvg_visibilityFeatPos` both empty) although its point announces one observation. -/
def shortVisibility : IPointsSchema where
  userProperties := some
    { mvg_visibilitySize := some [1], mvg_visibilityIds := some [],
      mvg_visibilityFeatPos := some [] }
  arbGeomParams := none
  positions := [(1, 2, 3)]

/-- The point object `twoPoints` with one entry of `mvg_visibilitySize` missing. -/
def badVisibilitySize : IPointsSchema where
  userProperties := some
    { mvg_describerType := some [10, 11], mvg_visibilitySize := some [1],
      mvg_visibilityIds := some [7, 70, 8, 80, 9, 90],
      mvg_visibilityFeatPos := some [1, 2, 3, 4, 5, 6] }
  arbGeomParams := none
  positions := [(1, 2, 3), (4, 5, 6)]

/-- A scene whose only landmark has the key `1`. -/
def sceneWithKeyOne : SfMData where
  structure_ := [(1, { X := (9, 9, 9), descType := EImageDescriberType.UNKNOWN })]

/-- The struct `ImageLocalizerMatchData` with its default member initialisers; the fixed-size
`projection_matrix` has none (its entries are left as they are), `error_max` starts at
infinity, `⊤`. -/
structure ImageLocalizerMatchData where
  projection_matrix : robustEstimation.Mat
  pt3D : robustEstimation.Mat := []
  pt2D : robustEstimation.Mat := []
  vec_inliers : List Nat := []
  vec_descType : List EImageDescriberType := []
  error_max : WithTop ℚ := ⊤
  max_iteration : Nat := 4096

/-- Modelled from the spec: the enumeration `robustEstimation::ERobustEstimator` (declared in
`robustEstimation/estimators.hpp`, which is not at hand): the two supported choices named by
the documentation of `Localize`, and every other value of the enumeration. -/
inductive ERobustEstimator where
  | ACRANSAC
  | LORANSAC
  | other (value : Nat)
deriving DecidableEq

/-- The failures a localization call reports. -/
inductive LocalizeError where
  | invalidArgument
deriving DecidableEq

/-- Modelled from the spec: the static overload `SfMLocalizer::Localize` (only declared in
`SfMLocalizer.hpp`; its body is not at hand). The 2D-3D correspondences are supplied in
`resection_data`; the estimator family is selected by `estimator`, exactly two values being
supported, any other choice is an invalid-argument error. The two robust estimators are
collaborators, taken as parameters: each returns the pose and the updated matching data when
a model is accepted. The result `Except.ok none` is the return value `false`. -/
def SfMLocalizer.Localize {Intrinsic Pose3 : Type}
    (acransac loransac : Nat × Nat → Option Intrinsic → ImageLocalizerMatchData →
      Option (Pose3 × ImageLocalizerMatchData))
    (image_size : Nat × Nat) (optional_intrinsics : Option Intrinsic)
    (resection_data : ImageLocalizerMatchData)
    (estimator : ERobustEstimator := ERobustEstimator.ACRANSAC) :
    Except LocalizeError (Option (Pose3 × ImageLocalizerMatchData)) :=
  match estimator with
  | ERobustEstimator.ACRANSAC =>
    Except.ok (acransac image_size optional_intrinsics resection_data)
  | ERobustEstimator.LORANSAC =>
    Except.ok (loransac image_size optional_intrinsics resection_data)
  | ERobustEstimator.other _ => Except.error LocalizeError.invalidArgument

/-- Modelled from the spec: `SfMLocalizer::RefinePose` (only declared in `SfMLocalizer.hpp`;
its body is not at hand). A nonlinear least-squares minimisation of the reprojection error
(the collaborator `minimize`) proposes an intrinsic and a pose, each taken up only under its
flag; the call returns `true` with the refined values only if their residual RMSE (the
collaborator `rmse`) is strictly lower than before, otherwise it returns `false` and the
inputs are left unchanged. The result is the flag, the intrinsic and the pose on return. -/
def SfMLocalizer.RefinePose {Intrinsic Pose3 : Type}
    (rmse : Intrinsic → Pose3 → ImageLocalizerMatchData → ℚ)
    (minimize : Intrinsic → Pose3 → ImageLocalizerMatchData → Bool → Bool → Intrinsic × Pose3)
    (intrinsics : Intrinsic) (pose : Pose3) (matching_data : ImageLocalizerMatchData)
    (b_refine_pose b_refine_intrinsic : Bool) : Bool × Intrinsic × Pose3 :=
  let refined := minimize intrinsics pose matching_data b_refine_pose b_refine_intrinsic
  let refinedIntrinsics := if b_refine_intrinsic then refined.1 else intrinsics
  let refinedPose := if b_refine_pose then refined.2 else pose
  if rmse refinedIntrinsics refinedPose matching_data < rmse intrinsics pose matching_data then
    (true, refinedIntrinsics, refinedPose)
  else (false, intrinsics, pose)

/-- A scene whose only landmark has the key `0`. -/
def sceneWithKeyZero : SfMData where
  structure_ := [(0, { X := (9, 9, 9), descType := EImageDescriberType.UNKNOWN })]

/-- The scene `sceneWithKeyZero` with the two points of `badVisibilitySize` added under the
keys `1` and `2`, with their describer types and no observation. -/
def sceneAfterFailure : SfMData where
  structure_ :=
    [(0, { X := (9, 9, 9), descType := EImageDescriberType.UNKNOWN }),
      (1, { X := (1, 2, 3), descType := EImageDescriberType.ofCode 10 }),
      (2, { X := (4, 5, 6), descType := EImageDescriberType.ofCode 11 })]

/-- A rig membership test used as test input: the rig index of the view is defined. -/
def testIsPartOfRig (view : View) : Bool := view.rigId != UndefinedIndexT

/-- A pose setter used as test input: the pose is stored under the pose index of the view. -/
def testSetPose (sfmData : SfMData) (view : View) (pose : Pose3) : SfMData :=
  { sfmData with poses := mapAssign sfmData.poses view.poseId pose }

/-- A camera of the rig `5`, sub-pose `0`, with view index `3` and a 640x480 sensor. -/
def rigCamera : ICameraSchema where
  userProperties := some
    { mvg_viewId := some 3, mvg_rigId := some 5, mvg_subPoseId := some 0,
      mvg_sensorSizePix := some [640, 480] }
  arbGeomParams := none

/-- The identity pose. -/
def identityPose : Pose3 where
  rotation := [[1, 0, 0], [0, 1, 0], [0, 0, 1]]
  center := (0, 0, 0)

/-- A scene with the rig `5`, whose single sub-pose is not initialised. -/
def sceneWithRig : SfMData where
  structure_ := []
  rigs := [(5, [{ status := ERigSubPoseStatus.UNINITIALIZED, pose := identityPose }])]

/-- The 4x4 matrix of a translation by `(1, 2, 3)`, as Alembic stores it (translation in the
fourth row). -/
def translationMat : M44d := [[1, 0, 0, 0], [0, 1, 0, 0], [0, 0, 1, 0], [1, 2, 3, 1]]

/-- A residual used as test input: intrinsic and pose are numbers, the RMSE of a pose `p` is
`|p - 3|`. -/
def testRmse (_intrinsics : ℚ) (pose : ℚ) (_matching_data : ImageLocalizerMatchData) : ℚ :=
  |pose - 3|

/-- A minimiser used as test input: it proposes the pose `3` and doubles the intrinsic. -/
def testMinimize (intrinsics : ℚ) (_pose : ℚ) (_matching_data : ImageLocalizerMatchData)
    (_b_refine_pose _b_refine_intrinsic : Bool) : ℚ × ℚ :=
  (2 * intrinsics, 3)

/-- Matching data used as test input: default-constructed, with an empty matrix as
`projection_matrix`. -/
def testMatchData : ImageLocalizerMatchData := { projection_matrix := [] }

end sfm

/-! # Descriptor loading (`voctree/descriptorLoader.tcc`)

The file system is not modelled: a descriptor file is given by what the three I/O helpers
called on it deliver. `size_t` is `Nat` (no wrap-around). -/

namespace voctree

/-- A descriptor file as `readDescFromFiles` sees it: the two outputs of `getInfoBinFile` on
it, its size in bytes (`bfs::file_size`), and the descriptors that `loadDescsFromBinFile`
appends to the vector it is given (its flag `append` is `true`). -/
structure DescriptorFile (DescriptorT : Type) where
  numDescriptors : Nat
  bytesPerElement : Nat
  file_size : Nat
  descs : List DescriptorT

/-- What a call of `readDescFromFiles` leaves: the value returned and the two vectors. -/
structure ReadResult (DescriptorT : Type) where
  returned : Nat
  descriptors : List DescriptorT
  numFeatures : List Nat

/-- The first loop of `readDescFromFiles`: the pair `(numDescriptors, bytesPerElement)` after
it. While `bytesPerElement` is `0` the pair is taken from `getInfoBinFile`; afterwards the
number of descriptors of a file is estimated from its size. -/
def readDescFromFiles.precompute {DescriptorT : Type} (static_size : Nat)
    (descriptorsFiles : List (DescriptorFile DescriptorT)) : Nat × Nat :=
  descriptorsFiles.foldl
    (fun (state : Nat × Nat) currentFile =>
      let numDescriptors := state.1
      let bytesPerElement := state.2
      if bytesPerElement = 0 then (currentFile.numDescriptors, currentFile.bytesPerElement)
      else
        (numDescriptors + (currentFile.file_size / bytesPerElement) / static_size,
          bytesPerElement))
    (0, 0)

/-- The second loop of `readDescFromFiles`: every file is loaded at the end of `descriptors`
and the growth of the vector since the last file is pushed to `numFeatures`. The state is
`(numDescriptors, descriptors, numFeatures)`. -/
def readDescFromFiles.load {DescriptorT : Type}
    (descriptorsFiles : List (DescriptorFile DescriptorT))
    (state : Nat × List DescriptorT × List Nat) : Nat × List DescriptorT × List Nat :=
  descriptorsFiles.foldl
    (fun (state : Nat × List DescriptorT × List Nat) currentFile =>
      let numDescriptors := state.1
      let descriptors := state.2.1 ++ currentFile.descs
      let result := descriptors.length
      let numFeatures := state.2.2 ++ [result - numDescriptors]
      (result, descriptors, numFeatures))
    state

/-- The function `readDescFromFiles`. `descriptorsFiles` is the list that
`getListOfDescriptorFiles` delivers for `filepath` and `descFolder`, in the order of its keys;
`static_size` is `DescriptorT::static_size`; `NDEBUG` tells whether `assert` is compiled
out. The result is `none` when the assertion fails. -/
def readDescFromFiles {DescriptorT : Type} (static_size : Nat) (NDEBUG : Bool)
    (descriptorsFiles : List (DescriptorFile DescriptorT))
    (descriptors : List DescriptorT) (numFeatures : List Nat) :
    Option (ReadResult DescriptorT) :=
  let counted := readDescFromFiles.precompute static_size descriptorsFiles
  let numDescriptors := counted.1
  let bytesPerElement := counted.2
  if bytesPerElement = 0 then
    some { returned := 0, descriptors := descriptors, numFeatures := numFeatures }
  else
    let numDescriptorsCheck := numDescriptors
    let numDescriptors := 0
    let loaded := readDescFromFiles.load descriptorsFiles (numDescriptors, descriptors, numFeatures)
    let numDescriptors := loaded.1
    if NDEBUG = false ∧ numDescriptors ≠ numDescriptorsCheck then none
    else some { returned := numDescriptors, descriptors := loaded.2.1, numFeatures := loaded.2.2 }

/-- A descriptor file used as test input: it holds the single descriptor `7`, one byte per
element (the descriptors are numbers, `static_size` is `1`). -/
def oneDescriptorFile : DescriptorFile Nat where
  numDescriptors := 1
  bytesPerElement := 1
  file_size := 9
  descs := [7]

/-- A descriptor file used as test input: two descriptors, one byte per element. -/
def twoDescriptorFile : DescriptorFile Nat where
  numDescriptors := 2
  bytesPerElement := 1
  file_size := 10
  descs := [8, 9]

end voctree

/-! # File names of `convertUID` (`software/convert/main_convertUID.cpp`)

A `std::string` is a `List Char`; `size_t` arithmetic that can wrap does so at `2^64`. The
renaming itself (the calls of `rename`) is outside the model. -/

namespace convertUID

/-- The constant `std::string::npos`, the largest `size_t`. -/
def npos : Nat := 2 ^ 64 - 1

/-- The call `s.substr(pos, count)`: the characters from `pos` on, at most `count` of them; it
throws (`none`) when `pos` is larger than the size of `s`. -/
def substr (s : List Char) (pos count : Nat) : Option (List Char) :=
  if pos > s.length then none else some ((s.drop pos).take count)

/-- The index of the first occurrence of `c` in `s`, if there is one. -/
def findIdx : List Char → Char → Option Nat
  | [], _ => none
  | x :: xs, c => if x = c then some 0 else (findIdx xs c).map (fun i => i + 1)

/-- The call `s.find(c)`: the index of the first occurrence of `c`, or `npos`. -/
def find (s : List Char) (c : Char) : Nat := (findIdx s c).getD npos

/-- The call `to_string(n)` on an unsigned value: its decimal digits. -/
def to_string (n : Nat) : List Char := Nat.toDigits 10 n

/-- The four file names that one round of the loop of `main` derives for a view. -/
structure FileNames where
  oldDesc : List Char
  newDesc : List Char
  oldFeat : List Char
  newFeat : List Char
deriving DecidableEq

/-- One round of the loop of `main`, up to the calls of `rename`: the names derived from the
features folder, the image path of the view and its view index. The result is `none` when a
call of `substr` throws. The position `featuresFolder.size() - 1` is computed in `size_t`:
it is `npos` for the empty string; `find(...) + 1` wraps modulo `2^64`. -/
def fileNames (featuresFolder imagePath : List Char) (viewId : Nat) : Option FileNames :=
  let compared2 : List Char := ['/']
  let id := to_string viewId
  match substr featuresFolder
      (if featuresFolder.length = 0 then npos else featuresFolder.length - 1)
      featuresFolder.length with
  | none => none
  | some last =>
    let names : Option (List Char × List Char) :=
      if last = compared2 then
        match substr imagePath 1 (find imagePath '.') with
        | none => none
        | some part => some (featuresFolder ++ part, featuresFolder ++ id)
      else
        match substr imagePath 0 ((find imagePath '.' + 1) % 2 ^ 64) with
        | none => none
        | some part => some (featuresFolder ++ part, featuresFolder ++ compared2 ++ id)
    match names with
    | none => none
    | some (filename, newname) =>
      some
        { oldDesc := filename ++ ['d', 'e', 's', 'c'],
          newDesc := newname ++ ['.', 'd', 'e', 's', 'c'],
          oldFeat := filename ++ ['f', 'e', 'a', 't'],
          newFeat := newname ++ ['.', 'f', 'e', 'a', 't'] }

/-- The part of a string up to and including the first occurrence of `c` (the whole string
when `c` does not occur): the reading of "the image path up to and including its first
dot" against which `fileNames` is compared. -/
def upToFirst (c : Char) : List Char → List Char
  | [] => []
  | x :: xs => if x = c then [x] else x :: upToFirst c xs

end convertUID

namespace robustEstimation

variable {Model : Type}

theorem resize_length (v : List ℚ) (n : Nat) : (resize v n).length = n := by
  unfold resize
  simp only [List.length_append, List.length_take, List.length_replicate]
  omega

theorem set_set_take_succ (w : List ℚ) (i : Nat) (e v : ℚ) (h : i < w.length) :
    ((w.set i e).set i v).take (i + 1) = w.take i ++ [v] := by
  induction w generalizing i with
  | nil => simp at h
  | cons x xs ih =>
    cases i with
    | zero => simp
    | succ j =>
      have hj : j < xs.length := by simpa using h
      simp only [List.set_cons_succ, List.take_succ_cons, List.cons_append, ih j hj]

theorem getD_set_self (w : List ℚ) (i : Nat) (e : ℚ) (h : i < w.length) :
    (w.set i e).getD i 0 = e := by
  induction w generalizing i with
  | nil => simp at h
  | cons x xs ih =>
    cases i with
    | zero => simp
    | succ j =>
      have hj : j < xs.length := by simpa using h
      simpa using ih j hj

theorem twoView_computeWeightsLoop_eq (k : KernelAdaptorLoRansac Model)
    (model : Model) (inliers : List Nat) (eps : ℚ) :
    ∀ (n sample : Nat) (w : List ℚ), inliers.length - sample = n →
      w.length = inliers.length →
      k.computeWeightsLoop model inliers eps sample w
        = (weightsFrom (Mat.col k.x1_) (Mat.col k.x2_) (k.Error model) eps
            (inliers.drop sample)).map (fun ws => w.take sample ++ ws) := by
  intro n
  induction n with
  | zero =>
    intro sample w hn hw
    have hge : inliers.length ≤ sample := by omega
    rw [KernelAdaptorLoRansac.computeWeightsLoop]
    rw [dif_neg (by omega), List.drop_of_length_le hge]
    simp [weightsFrom, List.take_of_length_le (hw ▸ hge)]
  | succ n ih =>
    intro sample w hn hw
    have hlt : sample < inliers.length := by omega
    rw [KernelAdaptorLoRansac.computeWeightsLoop]
    rw [dif_pos hlt, List.drop_eq_getElem_cons hlt]
    simp only [weightsFrom]
    cases h1 : Mat.col k.x1_ inliers[sample] with
    | none => simp
    | some a =>
      cases h2 : Mat.col k.x2_ inliers[sample] with
      | none => simp
      | some b =>
        have hs : sample < w.length := by omega
        simp only []
        rw [ih (sample + 1) _ (by omega) (by simpa using hw)]
        rw [set_set_take_succ w sample _ _ hs, getD_set_self w sample _ hs]
        simp [Option.map_map, Function.comp_def, weightOf]

theorem resection_computeWeightsLoop_eq
    (k : KernelAdaptorResectionLORansac_K Model) (model : Model) (inliers : List Nat) (eps : ℚ) :
    ∀ (n sample : Nat) (w : List ℚ), inliers.length - sample = n →
      w.length = inliers.length →
      k.computeWeightsLoop model inliers eps sample w
        = (weightsFrom (Mat.col k.x2d_) (Mat.col k.x3D_) (k.Error model) eps
            (inliers.drop sample)).map (fun ws => w.take sample ++ ws) := by
  intro n
  induction n with
  | zero =>
    intro sample w hn hw
    have hge : inliers.length ≤ sample := by omega
    rw [KernelAdaptorResectionLORansac_K.computeWeightsLoop]
    rw [dif_neg (by omega), List.drop_of_length_le hge]
    simp [weightsFrom, List.take_of_length_le (hw ▸ hge)]
  | succ n ih =>
    intro sample w hn hw
    have hlt : sample < inliers.length := by omega
    rw [KernelAdaptorResectionLORansac_K.computeWeightsLoop]
    rw [dif_pos hlt, List.drop_eq_getElem_cons hlt]
    simp only [weightsFrom]
    cases h1 : Mat.col k.x2d_ inliers[sample] with
    | none => simp
    | some a =>
      cases h2 : Mat.col k.x3D_ inliers[sample] with
      | none => simp
      | some b =>
        have hs : sample < w.length := by omega
        simp only []
        rw [ih (sample + 1) _ (by omega) (by simpa using hw)]
        rw [set_set_take_succ w sample _ _ hs, getD_set_self w sample _ hs]
        simp [Option.map_map, Function.comp_def, weightOf]

/-- The two-view `computeWeights` computes the reference weights of its inlier list, whatever
the vector passed in held. -/
theorem twoView_computeWeights_eq (k : KernelAdaptorLoRansac Model)
    (model : Model) (inliers : List Nat) (w0 : List ℚ) (eps : ℚ) :
    k.computeWeights model inliers w0 eps
      = weightsFrom (Mat.col k.x1_) (Mat.col k.x2_) (k.Error model) eps inliers := by
  unfold KernelAdaptorLoRansac.computeWeights
  simp only []
  rw [twoView_computeWeightsLoop_eq k model inliers eps inliers.length 0 _ (by simp)
    (resize_length w0 inliers.length)]
  simp only [List.drop_zero, List.take_zero, List.nil_append]
  cases h : weightsFrom (Mat.col k.x1_) (Mat.col k.x2_) (k.Error model) eps inliers <;> simp

/-- The resection `computeWeights` computes the reference weights of its inlier list, whatever
the vector passed in held. -/
theorem resection_computeWeights_eq
    (k : KernelAdaptorResectionLORansac_K Model)
    (model : Model) (inliers : List Nat) (w0 : List ℚ) (eps : ℚ) :
    k.computeWeights model inliers w0 eps
      = weightsFrom (Mat.col k.x2d_) (Mat.col k.x3D_) (k.Error model) eps inliers := by
  unfold KernelAdaptorResectionLORansac_K.computeWeights
  simp only []
  rw [resection_computeWeightsLoop_eq k model inliers eps inliers.length 0 _ (by simp)
    (resize_length w0 inliers.length)]
  simp only [List.drop_zero, List.take_zero, List.nil_append]
  cases h : weightsFrom (Mat.col k.x2d_) (Mat.col k.x3D_) (k.Error model) eps inliers <;> simp

theorem Mat.col_of_lt (m : Mat) (i : Nat) (h : i < Mat.cols m) : ∃ v, Mat.col m i = some v := by
  unfold Mat.cols at h
  exact ⟨m[i], by simp [Mat.col, h]⟩

theorem Mat.col_eq_none_iff (m : Mat) (i : Nat) : Mat.col m i = none ↔ Mat.cols m ≤ i := by
  simp [Mat.col, Mat.cols]

section weightsFrom_facts

variable (c1 c2 : Nat → Option Vec) (E : Vec → Vec → ℚ) (eps : ℚ)

theorem weightsFrom_length :
    ∀ (l : List Nat) (ws : List ℚ), weightsFrom c1 c2 E eps l = some ws → ws.length = l.length
  | [], ws, h => by
    simp only [weightsFrom, Option.some.injEq] at h
    simp [← h]
  | idx :: rest, ws, h => by
    simp only [weightsFrom] at h
    cases h1 : c1 idx with
    | none => simp [h1] at h
    | some a =>
      cases h2 : c2 idx with
      | none => simp [h1, h2] at h
      | some b =>
        simp only [h1, h2, Option.map_eq_some'] at h
        obtain ⟨ws', hws', rfl⟩ := h
        simp [weightsFrom_length rest ws' hws']

theorem weightsFrom_getElem :
    ∀ (l : List Nat) (ws : List ℚ), weightsFrom c1 c2 E eps l = some ws →
      ∀ (j : Nat) (hj : j < l.length), ∃ a b, c1 l[j] = some a ∧ c2 l[j] = some b ∧
        ws[j]? = some (weightOf eps (E a b))
  | [], _, _, j, hj => by simp at hj
  | idx :: rest, ws, h, j, hj => by
    simp only [weightsFrom] at h
    cases h1 : c1 idx with
    | none => simp [h1] at h
    | some a =>
      cases h2 : c2 idx with
      | none => simp [h1, h2] at h
      | some b =>
        simp only [h1, h2, Option.map_eq_some'] at h
        obtain ⟨ws', hws', rfl⟩ := h
        cases j with
        | zero => exact ⟨a, b, by simpa using h1, by simpa using h2, by simp⟩
        | succ i =>
          have hi : i < rest.length := by simpa using hj
          simpa using weightsFrom_getElem rest ws' hws' i hi

theorem weightsFrom_mem :
    ∀ (l : List Nat) (ws : List ℚ), weightsFrom c1 c2 E eps l = some ws →
      ∀ w ∈ ws, ∃ idx ∈ l, ∃ a b, c1 idx = some a ∧ c2 idx = some b ∧
        w = weightOf eps (E a b)
  | [], ws, h, w, hw => by
    simp only [weightsFrom, Option.some.injEq] at h
    simp [← h] at hw
  | idx :: rest, ws, h, w, hw => by
    simp only [weightsFrom] at h
    cases h1 : c1 idx with
    | none => simp [h1] at h
    | some a =>
      cases h2 : c2 idx with
      | none => simp [h1, h2] at h
      | some b =>
        simp only [h1, h2, Option.map_eq_some'] at h
        obtain ⟨ws', hws', rfl⟩ := h
        rcases List.mem_cons.mp hw with rfl | hw'
        · exact ⟨idx, List.mem_cons_self _ _, a, b, h1, h2, rfl⟩
        · obtain ⟨i, hi, r⟩ := weightsFrom_mem rest ws' hws' w hw'
          exact ⟨i, List.mem_cons_of_mem _ hi, r⟩

theorem weightsFrom_eq_none_iff :
    ∀ (l : List Nat), weightsFrom c1 c2 E eps l = none ↔ ∃ idx ∈ l, c1 idx = none ∨ c2 idx = none
  | [] => by simp [weightsFrom]
  | idx :: rest => by
    simp only [weightsFrom]
    cases h1 : c1 idx with
    | none => simp [h1]
    | some a =>
      cases h2 : c2 idx with
      | none => simp [h2]
      | some b => simp [h1, h2, weightsFrom_eq_none_iff rest]

theorem weightsFrom_isSome (l : List Nat)
    (h : ∀ idx ∈ l, (∃ a, c1 idx = some a) ∧ ∃ b, c2 idx = some b) :
    ∃ ws, weightsFrom c1 c2 E eps l = some ws := by
  cases hw : weightsFrom c1 c2 E eps l with
  | some ws => exact ⟨ws, rfl⟩
  | none =>
    obtain ⟨idx, hidx, hnone⟩ := (weightsFrom_eq_none_iff c1 c2 E eps l).mp hw
    obtain ⟨⟨a, ha⟩, b, hb⟩ := h idx hidx
    rcases hnone with h0 | h0
    · simp [ha] at h0
    · simp [hb] at h0

end weightsFrom_facts

theorem weightOf_of_le (eps e : ℚ) (h : e ≤ eps) : weightOf eps e = 1 / eps ^ 2 := by
  simp [weightOf, max_eq_left h]

theorem weightOf_of_lt (eps e : ℚ) (h : eps < e) : weightOf eps e = 1 / e ^ 2 := by
  simp [weightOf, max_eq_right h.le]

theorem weightOf_le (eps e : ℚ) (h : 0 < eps) : weightOf eps e ≤ 1 / eps ^ 2 := by
  unfold weightOf
  apply one_div_le_one_div_of_le (pow_pos h 2)
  exact pow_le_pow_left₀ h.le (le_max_left eps e) 2

section ExtractColumns_facts

theorem ExtractColumns_of_valid (A : Mat) :
    ∀ (l : List Nat), (∀ idx ∈ l, idx < Mat.cols A) →
      ∃ m, ExtractColumns A l = some m ∧ Mat.cols m = l.length ∧
        ∀ (j : Nat) (hj : j < l.length), ∃ v, Mat.col m j = some v ∧ Mat.col A l[j] = some v
  | [], _ => ⟨[], rfl, rfl, fun j hj => by simp at hj⟩
  | c :: rest, h => by
    obtain ⟨v, hv⟩ := Mat.col_of_lt A c (h c (List.mem_cons_self _ _))
    obtain ⟨m, hm, hlen, hcol⟩ :=
      ExtractColumns_of_valid A rest (fun idx hidx => h idx (List.mem_cons_of_mem _ hidx))
    refine ⟨v :: m, by simp [ExtractColumns, hv, hm], ?_, ?_⟩
    · simp only [Mat.cols] at hlen ⊢
      simp [hlen]
    · intro j hj
      cases j with
      | zero => exact ⟨v, by simp [Mat.col], by simpa using hv⟩
      | succ i =>
        have hi : i < rest.length := by simpa using hj
        obtain ⟨u, hu1, hu2⟩ := hcol i hi
        exact ⟨u, by simpa [Mat.col] using hu1, by simpa using hu2⟩

theorem ExtractColumns_eq_none_iff (A : Mat) :
    ∀ (l : List Nat), ExtractColumns A l = none ↔ ∃ idx ∈ l, Mat.cols A ≤ idx
  | [] => by simp [ExtractColumns]
  | c :: rest => by
    simp only [ExtractColumns]
    cases h1 : Mat.col A c with
    | none =>
      have := (Mat.col_eq_none_iff A c).mp h1
      simp [this]
    | some v =>
      have hc : ¬ Mat.cols A ≤ c := by
        intro hle
        rw [(Mat.col_eq_none_iff A c).mpr hle] at h1
        simp at h1
      cases h2 : ExtractColumns A rest with
      | none =>
        have := (ExtractColumns_eq_none_iff A rest).mp h2
        simp [this]
      | some m =>
        have hne : ¬ ∃ idx ∈ rest, Mat.cols A ≤ idx := by
          intro hex
          rw [(ExtractColumns_eq_none_iff A rest).mpr hex] at h2
          simp at h2
        simp only [List.mem_cons, exists_eq_or_imp, false_iff, not_or]
        simp [hc, hne]

end ExtractColumns_facts

/-- What the reference weights are on an index list whose column reads all succeed. -/
theorem weightsFrom_of_valid (c1 c2 : Nat → Option Vec) (E : Vec → Vec → ℚ) (eps : ℚ)
    (l : List Nat) (h : ∀ idx ∈ l, (∃ a, c1 idx = some a) ∧ ∃ b, c2 idx = some b) :
    ∃ ws, weightsFrom c1 c2 E eps l = some ws ∧ ws.length = l.length ∧
      (∀ (j : Nat) (hj : j < l.length), ∃ a b, c1 l[j] = some a ∧ c2 l[j] = some b ∧
        ws[j]? = some (weightOf eps (E a b))) ∧
      (∀ w ∈ ws, ∃ idx ∈ l, ∃ a b, c1 idx = some a ∧ c2 idx = some b ∧
        w = weightOf eps (E a b)) := by
  obtain ⟨ws, hws⟩ := weightsFrom_isSome c1 c2 E eps l h
  exact ⟨ws, hws, weightsFrom_length c1 c2 E eps l ws hws,
    weightsFrom_getElem c1 c2 E eps l ws hws, weightsFrom_mem c1 c2 E eps l ws hws⟩

theorem twoView_reads_of_valid (k : KernelAdaptorLoRansac Model)
    (inliers : List Nat)
    (h : ∀ idx ∈ inliers, idx < Mat.cols k.x1_ ∧ idx < Mat.cols k.x2_) :
    ∀ idx ∈ inliers, (∃ a, Mat.col k.x1_ idx = some a) ∧ ∃ b, Mat.col k.x2_ idx = some b :=
  fun idx hidx => ⟨Mat.col_of_lt _ _ (h idx hidx).1, Mat.col_of_lt _ _ (h idx hidx).2⟩

theorem resection_reads_of_valid
    (k : KernelAdaptorResectionLORansac_K Model) (inliers : List Nat)
    (h : ∀ idx ∈ inliers, idx < Mat.cols k.x2d_ ∧ idx < Mat.cols k.x3D_) :
    ∀ idx ∈ inliers, (∃ a, Mat.col k.x2d_ idx = some a) ∧ ∃ b, Mat.col k.x3D_ idx = some b :=
  fun idx hidx => ⟨Mat.col_of_lt _ _ (h idx hidx).1, Mat.col_of_lt _ _ (h idx hidx).2⟩

/-- The weight at position `j`, once the two columns read for `l[j]` are known. -/
theorem weightsFrom_at (c1 c2 : Nat → Option Vec) (E : Vec → Vec → ℚ) (eps : ℚ)
    (l : List Nat) (ws : List ℚ) (hws : weightsFrom c1 c2 E eps l = some ws)
    (j : Nat) (hj : j < l.length) (a b : Vec) (ha : c1 l[j] = some a) (hb : c2 l[j] = some b) :
    ws[j]? = some (weightOf eps (E a b)) := by
  obtain ⟨a0, b0, ha0, hb0, hw⟩ := weightsFrom_getElem c1 c2 E eps l ws hws j hj
  rw [ha] at ha0
  rw [hb] at hb0
  cases ha0
  cases hb0
  exact hw

/-! ## Claims -/

/-- C1. `KernelAdaptorLoRansac::computeWeights`: for every model, every `eps` and every inlier
list whose entries are valid column indices, the call returns and the `j`-th output weight
is `1 / max(eps, E_j)²`, `E_j` being `ErrorT::Error` of the model on column `inliers[j]` of
`x1_` and column `inliers[j]` of `x2_`. -/
theorem twoView_computeWeights_formula (k : KernelAdaptorLoRansac Model)
    (model : Model) (eps : ℚ) (inliers : List Nat) (vec_weights : List ℚ)
    (hvalid : ∀ idx ∈ inliers, idx < Mat.cols k.x1_ ∧ idx < Mat.cols k.x2_) :
    ∃ ws, k.computeWeights model inliers vec_weights eps = some ws ∧
      ∀ (j : Nat) (hj : j < inliers.length), ∃ a b,
        Mat.col k.x1_ inliers[j] = some a ∧ Mat.col k.x2_ inliers[j] = some b ∧
        ws[j]? = some (1 / (max eps (k.Error model a b)) ^ 2) := by
  obtain ⟨ws, hws, _, hget, _⟩ := weightsFrom_of_valid _ _ (k.Error model) eps inliers
    (twoView_reads_of_valid k inliers hvalid)
  exact ⟨ws, by rw [twoView_computeWeights_eq, hws], hget⟩

/-- Witness of C1: the two-view test kernel, model `2`, the inlier list `[1, 1, 0]`. -/
theorem twoView_computeWeights_formula_witness :
    ∃ ws, twoViewKernel.computeWeights 2 [1, 1, 0] [7] (1 / 2) = some ws ∧
      ∀ (j : Nat) (hj : j < [1, 1, 0].length), ∃ a b,
        Mat.col twoViewKernel.x1_ [1, 1, 0][j] = some a ∧
        Mat.col twoViewKernel.x2_ [1, 1, 0][j] = some b ∧
        ws[j]? = some (1 / (max (1 / 2) (twoViewKernel.Error 2 a b)) ^ 2) :=
  twoView_computeWeights_formula twoViewKernel 2 (1 / 2) [1, 1, 0] [7]
    (by decide)

/-- C2. `computeWeights` (both kernels): whatever `vec_weights` held on entry, the vector
returned has exactly `inliers.size()` entries, entry `j` being the weight of `inliers[j]`, and
the same vector is returned for every other entry content; the call returns whenever the
inliers are valid column indices; an empty inlier list yields an empty weight vector. -/
theorem computeWeights_size (k1 : KernelAdaptorLoRansac Model)
    (k2 : KernelAdaptorResectionLORansac_K Model) (model : Model) (eps : ℚ)
    (inliers : List Nat) (vec_weights : List ℚ) :
    ((∀ ws, k1.computeWeights model inliers vec_weights eps = some ws →
        ws.length = inliers.length ∧
        (∀ (j : Nat) (hj : j < inliers.length), ∃ a b,
          Mat.col k1.x1_ inliers[j] = some a ∧ Mat.col k1.x2_ inliers[j] = some b ∧
          ws[j]? = some (1 / (max eps (k1.Error model a b)) ^ 2)) ∧
        ∀ other, k1.computeWeights model inliers other eps = some ws) ∧
      ((∀ idx ∈ inliers, idx < Mat.cols k1.x1_ ∧ idx < Mat.cols k1.x2_) →
        ∃ ws, k1.computeWeights model inliers vec_weights eps = some ws ∧
          ws.length = inliers.length) ∧
      k1.computeWeights model [] vec_weights eps = some []) ∧
    ((∀ ws, k2.computeWeights model inliers vec_weights eps = some ws →
        ws.length = inliers.length ∧
        (∀ (j : Nat) (hj : j < inliers.length), ∃ a b,
          Mat.col k2.x2d_ inliers[j] = some a ∧ Mat.col k2.x3D_ inliers[j] = some b ∧
          ws[j]? = some (1 / (max eps (k2.Error model a b)) ^ 2)) ∧
        ∀ other, k2.computeWeights model inliers other eps = some ws) ∧
      ((∀ idx ∈ inliers, idx < Mat.cols k2.x2d_ ∧ idx < Mat.cols k2.x3D_) →
        ∃ ws, k2.computeWeights model inliers vec_weights eps = some ws ∧
          ws.length = inliers.length) ∧
      k2.computeWeights model [] vec_weights eps = some []) := by
  refine ⟨⟨?_, ?_, ?_⟩, ⟨?_, ?_, ?_⟩⟩
  · intro ws hws
    rw [twoView_computeWeights_eq] at hws
    exact ⟨weightsFrom_length _ _ _ _ _ _ hws, weightsFrom_getElem _ _ _ _ _ _ hws,
      fun other => by rw [twoView_computeWeights_eq, hws]⟩
  · intro hvalid
    obtain ⟨ws, hws, hlen, _⟩ := weightsFrom_of_valid _ _ (k1.Error model) eps inliers
      (twoView_reads_of_valid k1 inliers hvalid)
    exact ⟨ws, by rw [twoView_computeWeights_eq, hws], hlen⟩
  · rw [twoView_computeWeights_eq]; rfl
  · intro ws hws
    rw [resection_computeWeights_eq] at hws
    exact ⟨weightsFrom_length _ _ _ _ _ _ hws, weightsFrom_getElem _ _ _ _ _ _ hws,
      fun other => by rw [resection_computeWeights_eq, hws]⟩
  · intro hvalid
    obtain ⟨ws, hws, hlen, _⟩ := weightsFrom_of_valid _ _ (k2.Error model) eps inliers
      (resection_reads_of_valid k2 inliers hvalid)
    exact ⟨ws, by rw [resection_computeWeights_eq, hws], hlen⟩
  · rw [resection_computeWeights_eq]; rfl

/-- Witness of C2: both test kernels on the inlier list `[2, 0]`, entered with a vector of
three stale entries; both calls return a vector of two entries. -/
theorem computeWeights_size_witness :
    (∃ ws, twoViewKernel.computeWeights 2 [2, 0] [9, 9, 9] (1 / 2) = some ws ∧
      ws.length = [2, 0].length) ∧
    (∃ ws, resectionKernel.computeWeights 2 [2, 0] [9, 9, 9] (1 / 2) = some ws ∧
      ws.length = [2, 0].length) :=
  ⟨(computeWeights_size twoViewKernel resectionKernel 2 (1 / 2) [2, 0] [9, 9, 9]).1.2.1
      (by decide),
    (computeWeights_size twoViewKernel resectionKernel 2 (1 / 2) [2, 0] [9, 9, 9]).2.2.1
      (by decide)⟩

/-- C6. `KernelAdaptorResectionLORansac_K::computeWeights`: for every inlier list of valid
column indices the call returns and the `j`-th weight is `1 / max(eps, E)²`, `E` being the
error of the model on column `i` of the 2D array and column `i` of the 3D array for the same
index `i = inliers[j]`. -/
theorem resection_computeWeights_formula
    (k : KernelAdaptorResectionLORansac_K Model)
    (model : Model) (eps : ℚ) (inliers : List Nat) (vec_weights : List ℚ)
    (hvalid : ∀ idx ∈ inliers, idx < Mat.cols k.x2d_ ∧ idx < Mat.cols k.x3D_) :
    ∃ ws, k.computeWeights model inliers vec_weights eps = some ws ∧
      ∀ (j : Nat) (hj : j < inliers.length), ∃ i a b, i = inliers[j] ∧
        Mat.col k.x2d_ i = some a ∧ Mat.col k.x3D_ i = some b ∧
        ws[j]? = some (1 / (max eps (k.Error model a b)) ^ 2) := by
  obtain ⟨ws, hws, _, hget, _⟩ := weightsFrom_of_valid _ _ (k.Error model) eps inliers
    (resection_reads_of_valid k inliers hvalid)
  refine ⟨ws, by rw [resection_computeWeights_eq, hws], fun j hj => ?_⟩
  obtain ⟨a, b, h⟩ := hget j hj
  exact ⟨inliers[j], a, b, rfl, h⟩

/-- Witness of C6: the resection test kernel, model `2`, the inlier list `[2, 1]`. -/
theorem resection_computeWeights_formula_witness :
    ∃ ws, resectionKernel.computeWeights 2 [2, 1] [] (1 / 2) = some ws ∧
      ∀ (j : Nat) (hj : j < [2, 1].length), ∃ i a b, i = [2, 1][j] ∧
        Mat.col resectionKernel.x2d_ i = some a ∧ Mat.col resectionKernel.x3D_ i = some b ∧
        ws[j]? = some (1 / (max (1 / 2) (resectionKernel.Error 2 a b)) ^ 2) :=
  resection_computeWeights_formula resectionKernel 2 (1 / 2) [2, 1] []
    (by decide)

/-- C3. `computeWeights` (both kernels): for every positive `eps` and every list of valid
inliers the call returns, and every inlier whose error under the model is at most `eps`, in
particular an inlier at zero residual, receives exactly the weight `1 / eps²`. -/
theorem computeWeights_floor (k1 : KernelAdaptorLoRansac Model)
    (k2 : KernelAdaptorResectionLORansac_K Model) (model : Model) (eps : ℚ)
    (inliers : List Nat) (vec_weights : List ℚ) (heps : 0 < eps) :
    ((∀ idx ∈ inliers, idx < Mat.cols k1.x1_ ∧ idx < Mat.cols k1.x2_) →
      ∃ ws, k1.computeWeights model inliers vec_weights eps = some ws ∧
        ∀ (j : Nat) (hj : j < inliers.length) (a b : Vec),
          Mat.col k1.x1_ inliers[j] = some a → Mat.col k1.x2_ inliers[j] = some b →
          (k1.Error model a b ≤ eps → ws[j]? = some (1 / eps ^ 2)) ∧
          (k1.Error model a b = 0 → ws[j]? = some (1 / eps ^ 2))) ∧
    ((∀ idx ∈ inliers, idx < Mat.cols k2.x2d_ ∧ idx < Mat.cols k2.x3D_) →
      ∃ ws, k2.computeWeights model inliers vec_weights eps = some ws ∧
        ∀ (j : Nat) (hj : j < inliers.length) (a b : Vec),
          Mat.col k2.x2d_ inliers[j] = some a → Mat.col k2.x3D_ inliers[j] = some b →
          (k2.Error model a b ≤ eps → ws[j]? = some (1 / eps ^ 2)) ∧
          (k2.Error model a b = 0 → ws[j]? = some (1 / eps ^ 2))) := by
  constructor
  · intro hvalid
    obtain ⟨ws, hws⟩ := weightsFrom_isSome _ _ (k1.Error model) eps inliers
      (twoView_reads_of_valid k1 inliers hvalid)
    refine ⟨ws, by rw [twoView_computeWeights_eq, hws], fun j hj a b ha hb => ?_⟩
    rw [weightsFrom_at _ _ _ _ _ _ hws j hj a b ha hb]
    exact ⟨fun he => by rw [weightOf_of_le eps _ he],
      fun he => by rw [weightOf_of_le eps _ (he ▸ heps.le)]⟩
  · intro hvalid
    obtain ⟨ws, hws⟩ := weightsFrom_isSome _ _ (k2.Error model) eps inliers
      (resection_reads_of_valid k2 inliers hvalid)
    refine ⟨ws, by rw [resection_computeWeights_eq, hws], fun j hj a b ha hb => ?_⟩
    rw [weightsFrom_at _ _ _ _ _ _ hws j hj a b ha hb]
    exact ⟨fun he => by rw [weightOf_of_le eps _ he],
      fun he => by rw [weightOf_of_le eps _ (he ▸ heps.le)]⟩

/-- Witness of C3: both test kernels, model `2`, `eps = 1/2`, inliers `[0, 2]` (both at zero
residual). -/
theorem computeWeights_floor_witness :
    (∃ ws, twoViewKernel.computeWeights 2 [0, 2] [] (1 / 2) = some ws ∧
        ∀ (j : Nat) (hj : j < [0, 2].length) (a b : Vec),
          Mat.col twoViewKernel.x1_ [0, 2][j] = some a →
          Mat.col twoViewKernel.x2_ [0, 2][j] = some b →
          (twoViewKernel.Error 2 a b ≤ 1 / 2 → ws[j]? = some (1 / (1 / 2 : ℚ) ^ 2)) ∧
          (twoViewKernel.Error 2 a b = 0 → ws[j]? = some (1 / (1 / 2 : ℚ) ^ 2))) ∧
    (∃ ws, resectionKernel.computeWeights 2 [0, 2] [] (1 / 2) = some ws ∧
        ∀ (j : Nat) (hj : j < [0, 2].length) (a b : Vec),
          Mat.col resectionKernel.x2d_ [0, 2][j] = some a →
          Mat.col resectionKernel.x3D_ [0, 2][j] = some b →
          (resectionKernel.Error 2 a b ≤ 1 / 2 → ws[j]? = some (1 / (1 / 2 : ℚ) ^ 2)) ∧
          (resectionKernel.Error 2 a b = 0 → ws[j]? = some (1 / (1 / 2 : ℚ) ^ 2))) :=
  ⟨(computeWeights_floor twoViewKernel resectionKernel 2 (1 / 2) [0, 2] [] (by norm_num)).1
      (by decide),
    (computeWeights_floor twoViewKernel resectionKernel 2 (1 / 2) [0, 2] [] (by norm_num)).2
      (by decide)⟩

/-- C4. `computeWeights` (both kernels): for every `eps` and every list of valid inliers the
call returns, and every inlier whose error `e` under the model is strictly greater than `eps`
receives exactly the weight `1 / e²`. -/
theorem computeWeights_above_eps (k1 : KernelAdaptorLoRansac Model)
    (k2 : KernelAdaptorResectionLORansac_K Model) (model : Model) (eps : ℚ)
    (inliers : List Nat) (vec_weights : List ℚ) :
    ((∀ idx ∈ inliers, idx < Mat.cols k1.x1_ ∧ idx < Mat.cols k1.x2_) →
      ∃ ws, k1.computeWeights model inliers vec_weights eps = some ws ∧
        ∀ (j : Nat) (hj : j < inliers.length) (a b : Vec),
          Mat.col k1.x1_ inliers[j] = some a → Mat.col k1.x2_ inliers[j] = some b →
          eps < k1.Error model a b → ws[j]? = some (1 / (k1.Error model a b) ^ 2)) ∧
    ((∀ idx ∈ inliers, idx < Mat.cols k2.x2d_ ∧ idx < Mat.cols k2.x3D_) →
      ∃ ws, k2.computeWeights model inliers vec_weights eps = some ws ∧
        ∀ (j : Nat) (hj : j < inliers.length) (a b : Vec),
          Mat.col k2.x2d_ inliers[j] = some a → Mat.col k2.x3D_ inliers[j] = some b →
          eps < k2.Error model a b → ws[j]? = some (1 / (k2.Error model a b) ^ 2)) := by
  constructor
  · intro hvalid
    obtain ⟨ws, hws⟩ := weightsFrom_isSome _ _ (k1.Error model) eps inliers
      (twoView_reads_of_valid k1 inliers hvalid)
    refine ⟨ws, by rw [twoView_computeWeights_eq, hws], fun j hj a b ha hb he => ?_⟩
    rw [weightsFrom_at _ _ _ _ _ _ hws j hj a b ha hb, weightOf_of_lt eps _ he]
  · intro hvalid
    obtain ⟨ws, hws⟩ := weightsFrom_isSome _ _ (k2.Error model) eps inliers
      (resection_reads_of_valid k2 inliers hvalid)
    refine ⟨ws, by rw [resection_computeWeights_eq, hws], fun j hj a b ha hb he => ?_⟩
    rw [weightsFrom_at _ _ _ _ _ _ hws j hj a b ha hb, weightOf_of_lt eps _ he]

/-- Witness of C4: both test kernels, model `2`, `eps = 1/2`, inliers `[1, 0]` (index `1` has
error `1`). -/
theorem computeWeights_above_eps_witness :
    (∃ ws, twoViewKernel.computeWeights 2 [1, 0] [] (1 / 2) = some ws ∧
        ∀ (j : Nat) (hj : j < [1, 0].length) (a b : Vec),
          Mat.col twoViewKernel.x1_ [1, 0][j] = some a →
          Mat.col twoViewKernel.x2_ [1, 0][j] = some b →
          1 / 2 < twoViewKernel.Error 2 a b →
          ws[j]? = some (1 / (twoViewKernel.Error 2 a b) ^ 2)) ∧
    (∃ ws, resectionKernel.computeWeights 2 [1, 0] [] (1 / 2) = some ws ∧
        ∀ (j : Nat) (hj : j < [1, 0].length) (a b : Vec),
          Mat.col resectionKernel.x2d_ [1, 0][j] = some a →
          Mat.col resectionKernel.x3D_ [1, 0][j] = some b →
          1 / 2 < resectionKernel.Error 2 a b →
          ws[j]? = some (1 / (resectionKernel.Error 2 a b) ^ 2)) :=
  ⟨(computeWeights_above_eps twoViewKernel resectionKernel 2 (1 / 2) [1, 0] []).1 (by decide),
    (computeWeights_above_eps twoViewKernel resectionKernel 2 (1 / 2) [1, 0] []).2 (by decide)⟩

/-- C7. `FitLS` (both kernels): for every list of valid inliers (any length, any order) the
result is the output of one run of the least-squares solver on two matrices with one column
per inlier, column `j` of the first being column `inliers[j]` of the first data array and
column `j` of the second being column `inliers[j]` of the second data array, with the
caller's `models` and `weights` handed over as they are (`none` when `weights` is omitted). -/
theorem FitLS_columns (k1 : KernelAdaptorLoRansac Model)
    (k2 : KernelAdaptorResectionLORansac_K Model) (inliers : List Nat)
    (models : List Model) (weights : Option (List ℚ)) :
    ((∀ idx ∈ inliers, idx < Mat.cols k1.x1_ ∧ idx < Mat.cols k1.x2_) →
      ∃ m1 m2 : Mat, Mat.cols m1 = inliers.length ∧ Mat.cols m2 = inliers.length ∧
        (∀ (j : Nat) (hj : j < inliers.length),
          (∃ v, Mat.col m1 j = some v ∧ Mat.col k1.x1_ inliers[j] = some v) ∧
          (∃ v, Mat.col m2 j = some v ∧ Mat.col k1.x2_ inliers[j] = some v)) ∧
        k1.FitLS inliers models weights = some (k1.Solve m1 m2 models weights) ∧
        k1.FitLS inliers models = some (k1.Solve m1 m2 models none)) ∧
    ((∀ idx ∈ inliers, idx < Mat.cols k2.x2d_ ∧ idx < Mat.cols k2.x3D_) →
      ∃ m1 m2 : Mat, Mat.cols m1 = inliers.length ∧ Mat.cols m2 = inliers.length ∧
        (∀ (j : Nat) (hj : j < inliers.length),
          (∃ v, Mat.col m1 j = some v ∧ Mat.col k2.x2d_ inliers[j] = some v) ∧
          (∃ v, Mat.col m2 j = some v ∧ Mat.col k2.x3D_ inliers[j] = some v)) ∧
        k2.FitLS inliers models weights = some (k2.Solve m1 m2 models weights) ∧
        k2.FitLS inliers models = some (k2.Solve m1 m2 models none)) := by
  constructor
  · intro hvalid
    obtain ⟨m1, h1, hl1, hc1⟩ :=
      ExtractColumns_of_valid k1.x1_ inliers (fun idx hidx => (hvalid idx hidx).1)
    obtain ⟨m2, h2, hl2, hc2⟩ :=
      ExtractColumns_of_valid k1.x2_ inliers (fun idx hidx => (hvalid idx hidx).2)
    exact ⟨m1, m2, hl1, hl2, fun j hj => ⟨hc1 j hj, hc2 j hj⟩,
      by simp [KernelAdaptorLoRansac.FitLS, h1, h2],
      by simp [KernelAdaptorLoRansac.FitLS, h1, h2]⟩
  · intro hvalid
    obtain ⟨m1, h1, hl1, hc1⟩ :=
      ExtractColumns_of_valid k2.x2d_ inliers (fun idx hidx => (hvalid idx hidx).1)
    obtain ⟨m2, h2, hl2, hc2⟩ :=
      ExtractColumns_of_valid k2.x3D_ inliers (fun idx hidx => (hvalid idx hidx).2)
    exact ⟨m1, m2, hl1, hl2, fun j hj => ⟨hc1 j hj, hc2 j hj⟩,
      by simp [KernelAdaptorResectionLORansac_K.FitLS, h1, h2],
      by simp [KernelAdaptorResectionLORansac_K.FitLS, h1, h2]⟩

/-- Witness of C7: both test kernels on the unordered inlier list `[2, 0, 2]`, with a
non-empty `models` vector and a weight vector. -/
theorem FitLS_columns_witness :
    (∃ m1 m2 : Mat, Mat.cols m1 = [2, 0, 2].length ∧ Mat.cols m2 = [2, 0, 2].length ∧
        (∀ (j : Nat) (hj : j < [2, 0, 2].length),
          (∃ v, Mat.col m1 j = some v ∧ Mat.col twoViewKernel.x1_ [2, 0, 2][j] = some v) ∧
          (∃ v, Mat.col m2 j = some v ∧ Mat.col twoViewKernel.x2_ [2, 0, 2][j] = some v)) ∧
        twoViewKernel.FitLS [2, 0, 2] [5] (some [1, 4, 1])
          = some (twoViewKernel.Solve m1 m2 [5] (some [1, 4, 1])) ∧
        twoViewKernel.FitLS [2, 0, 2] [5] = some (twoViewKernel.Solve m1 m2 [5] none)) ∧
    (∃ m1 m2 : Mat, Mat.cols m1 = [2, 0, 2].length ∧ Mat.cols m2 = [2, 0, 2].length ∧
        (∀ (j : Nat) (hj : j < [2, 0, 2].length),
          (∃ v, Mat.col m1 j = some v ∧ Mat.col resectionKernel.x2d_ [2, 0, 2][j] = some v) ∧
          (∃ v, Mat.col m2 j = some v ∧ Mat.col resectionKernel.x3D_ [2, 0, 2][j] = some v)) ∧
        resectionKernel.FitLS [2, 0, 2] [5] (some [1, 4, 1])
          = some (resectionKernel.Solve m1 m2 [5] (some [1, 4, 1])) ∧
        resectionKernel.FitLS [2, 0, 2] [5] = some (resectionKernel.Solve m1 m2 [5] none)) :=
  ⟨(FitLS_columns twoViewKernel resectionKernel [2, 0, 2] [5] (some [1, 4, 1])).1 (by decide),
    (FitLS_columns twoViewKernel resectionKernel [2, 0, 2] [5] (some [1, 4, 1])).2 (by decide)⟩

/-- C8, as stated, fails: `FitLS` on an empty inlier list (fewer entries than
`MINIMUM_LSSAMPLES`, for both test kernels) and on the list `[0, 0, 0, 0]` (more entries than
`NumSamples`) does not fail: it returns what the least-squares solver produces on the
extracted columns. -/
theorem FitLS_outside_sample_bounds_runs_solver :
    ([] : List Nat).length < twoViewKernel.MINIMUM_LSSAMPLES ∧
    twoViewKernel.FitLS [] [] = some (twoViewKernel.Solve [] [] [] none) ∧
    ([] : List Nat).length < resectionKernel.MINIMUM_LSSAMPLES ∧
    resectionKernel.FitLS [] [] = some (resectionKernel.Solve [] [] [] none) ∧
    twoViewKernel.NumSamples < [0, 0, 0, 0].length ∧
    twoViewKernel.FitLS [0, 0, 0, 0] []
      = some (twoViewKernel.Solve [[0], [0], [0], [0]] [[0], [0], [0], [0]] [] none) ∧
    resectionKernel.NumSamples < [0, 0, 0, 0].length ∧
    resectionKernel.FitLS [0, 0, 0, 0] []
      = some (resectionKernel.Solve [[0, 0], [0, 0], [0, 0], [0, 0]]
          [[0, 0, 1], [0, 0, 1], [0, 0, 1], [0, 0, 1]] [] none) := by
  refine ⟨by decide, rfl, by decide, rfl, by decide, ?_, by decide, ?_⟩
  · simp [KernelAdaptorLoRansac.FitLS, ExtractColumns, Mat.col, twoViewKernel]
  · simp [KernelAdaptorResectionLORansac_K.FitLS, ExtractColumns, Mat.col, resectionKernel]

/-- C8, amended: `FitLS` (both kernels) does not fail on account of the number of inliers:
for every inlier list with fewer than `MINIMUM_LSSAMPLES` entries, or with more entries than
`NumSamples`, whose entries are valid column indices, it runs the least-squares solver on the
columns extracted from the two data arrays and returns what the solver produces. -/
theorem FitLS_no_count_check (k1 : KernelAdaptorLoRansac Model)
    (k2 : KernelAdaptorResectionLORansac_K Model) (inliers : List Nat)
    (models : List Model) (weights : Option (List ℚ)) :
    ((inliers.length < k1.MINIMUM_LSSAMPLES ∨ k1.NumSamples < inliers.length) →
      (∀ idx ∈ inliers, idx < Mat.cols k1.x1_ ∧ idx < Mat.cols k1.x2_) →
      ∃ m1 m2 : Mat, ExtractColumns k1.x1_ inliers = some m1 ∧
        ExtractColumns k1.x2_ inliers = some m2 ∧
        k1.FitLS inliers models weights = some (k1.Solve m1 m2 models weights)) ∧
    ((inliers.length < k2.MINIMUM_LSSAMPLES ∨ k2.NumSamples < inliers.length) →
      (∀ idx ∈ inliers, idx < Mat.cols k2.x2d_ ∧ idx < Mat.cols k2.x3D_) →
      ∃ m1 m2 : Mat, ExtractColumns k2.x2d_ inliers = some m1 ∧
        ExtractColumns k2.x3D_ inliers = some m2 ∧
        k2.FitLS inliers models weights = some (k2.Solve m1 m2 models weights)) := by
  constructor
  · intro _ hvalid
    obtain ⟨m1, h1, _⟩ :=
      ExtractColumns_of_valid k1.x1_ inliers (fun idx hidx => (hvalid idx hidx).1)
    obtain ⟨m2, h2, _⟩ :=
      ExtractColumns_of_valid k1.x2_ inliers (fun idx hidx => (hvalid idx hidx).2)
    exact ⟨m1, m2, h1, h2, by simp [KernelAdaptorLoRansac.FitLS, h1, h2]⟩
  · intro _ hvalid
    obtain ⟨m1, h1, _⟩ :=
      ExtractColumns_of_valid k2.x2d_ inliers (fun idx hidx => (hvalid idx hidx).1)
    obtain ⟨m2, h2, _⟩ :=
      ExtractColumns_of_valid k2.x3D_ inliers (fun idx hidx => (hvalid idx hidx).2)
    exact ⟨m1, m2, h1, h2, by simp [KernelAdaptorResectionLORansac_K.FitLS, h1, h2]⟩

/-- Witness of amended C8: the two-view test kernel on `[1]` (one entry, `MINIMUM_LSSAMPLES`
is `2`) and the resection test kernel on `[0, 1, 1, 2]` (four entries, `NumSamples` is `3`). -/
theorem FitLS_no_count_check_witness :
    (∃ m1 m2 : Mat, ExtractColumns twoViewKernel.x1_ [1] = some m1 ∧
        ExtractColumns twoViewKernel.x2_ [1] = some m2 ∧
        twoViewKernel.FitLS [1] [] none = some (twoViewKernel.Solve m1 m2 [] none)) ∧
    (∃ m1 m2 : Mat, ExtractColumns resectionKernel.x2d_ [0, 1, 1, 2] = some m1 ∧
        ExtractColumns resectionKernel.x3D_ [0, 1, 1, 2] = some m2 ∧
        resectionKernel.FitLS [0, 1, 1, 2] [] none
          = some (resectionKernel.Solve m1 m2 [] none)) :=
  ⟨(FitLS_no_count_check twoViewKernel resectionKernel [1] [] none).1
      (Or.inl (by decide)) (by decide),
    (FitLS_no_count_check twoViewKernel resectionKernel [0, 1, 1, 2] [] none).2
      (Or.inr (by decide)) (by decide)⟩

/-- C10. `computeWeights` (both kernels): for every positive `eps`, every model and every
list of valid inliers, the call returns and no weight exceeds `1 / eps²`, however small the
error of the inlier is. -/
theorem computeWeights_le_floor (k1 : KernelAdaptorLoRansac Model)
    (k2 : KernelAdaptorResectionLORansac_K Model) (model : Model) (eps : ℚ)
    (inliers : List Nat) (vec_weights : List ℚ) (heps : 0 < eps) :
    ((∀ idx ∈ inliers, idx < Mat.cols k1.x1_ ∧ idx < Mat.cols k1.x2_) →
      ∃ ws, k1.computeWeights model inliers vec_weights eps = some ws ∧
        ∀ w ∈ ws, w ≤ 1 / eps ^ 2) ∧
    ((∀ idx ∈ inliers, idx < Mat.cols k2.x2d_ ∧ idx < Mat.cols k2.x3D_) →
      ∃ ws, k2.computeWeights model inliers vec_weights eps = some ws ∧
        ∀ w ∈ ws, w ≤ 1 / eps ^ 2) := by
  constructor
  · intro hvalid
    obtain ⟨ws, hws, _, _, hmem⟩ := weightsFrom_of_valid _ _ (k1.Error model) eps inliers
      (twoView_reads_of_valid k1 inliers hvalid)
    refine ⟨ws, by rw [twoView_computeWeights_eq, hws], fun w hw => ?_⟩
    obtain ⟨_, _, a, b, _, _, rfl⟩ := hmem w hw
    exact weightOf_le eps _ heps
  · intro hvalid
    obtain ⟨ws, hws, _, _, hmem⟩ := weightsFrom_of_valid _ _ (k2.Error model) eps inliers
      (resection_reads_of_valid k2 inliers hvalid)
    refine ⟨ws, by rw [resection_computeWeights_eq, hws], fun w hw => ?_⟩
    obtain ⟨_, _, a, b, _, _, rfl⟩ := hmem w hw
    exact weightOf_le eps _ heps

/-- Witness of C10: both test kernels, model `2`, `eps = 1/1000`, inliers `[0, 1, 2]`. -/
theorem computeWeights_le_floor_witness :
    (∃ ws, twoViewKernel.computeWeights 2 [0, 1, 2] [] (1 / 1000) = some ws ∧
        ∀ w ∈ ws, w ≤ 1 / (1 / 1000 : ℚ) ^ 2) ∧
    (∃ ws, resectionKernel.computeWeights 2 [0, 1, 2] [] (1 / 1000) = some ws ∧
        ∀ w ∈ ws, w ≤ 1 / (1 / 1000 : ℚ) ^ 2) :=
  ⟨(computeWeights_le_floor twoViewKernel resectionKernel 2 (1 / 1000) [0, 1, 2] []
      (by norm_num)).1 (by decide),
    (computeWeights_le_floor twoViewKernel resectionKernel 2 (1 / 1000) [0, 1, 2] []
      (by norm_num)).2 (by decide)⟩

/-- C11. The `eps` parameter of `computeWeights` is an ordinary argument with default `0.001`
in the abstract kernel interface and in both concrete kernels: a call that omits `eps` is the
call with `eps = 0.001 = 1/1000`; the argument is honoured when given (on the two-view test
kernel, `eps = 1/2` and the default give different weights to an inlier at zero residual). -/
theorem computeWeights_default_eps (g : LORansacGenericKernel Model)
    (k1 : KernelAdaptorLoRansac Model) (k2 : KernelAdaptorResectionLORansac_K Model)
    (model : Model) (inliers : List Nat) (vec_weights : List ℚ) :
    g.computeWeights model inliers vec_weights
      = g.computeWeights model inliers vec_weights (1 / 1000) ∧
    k1.computeWeights model inliers vec_weights
      = k1.computeWeights model inliers vec_weights (1 / 1000) ∧
    k2.computeWeights model inliers vec_weights
      = k2.computeWeights model inliers vec_weights (1 / 1000) ∧
    twoViewKernel.computeWeights 2 [0] [] = some [1000000] ∧
    twoViewKernel.computeWeights 2 [0] [] (1 / 2) = some [4] := by
  have h : (0.001 : ℚ) = 1 / 1000 := by norm_num
  refine ⟨by rw [h], by rw [h], by rw [h], ?_, ?_⟩
  · rw [twoView_computeWeights_eq]
    simp [weightsFrom, weightOf, Mat.col, twoViewKernel]
    norm_num
  · rw [twoView_computeWeights_eq]
    simp [weightsFrom, weightOf, Mat.col, twoViewKernel]
    norm_num

end robustEstimation

namespace sfm

theorem sampleColors_length (arbGeom : Option ICompoundProperty) (positions : List Vec3)
    (colors : List (ℚ × ℚ × ℚ))
    (h : readPointCloud.sampleColors arbGeom positions = some colors) :
    colors.length = positions.length := by
  unfold readPointCloud.sampleColors at h
  split at h
  · split at h
    · split at h
      · simp at h
      · rename_i hlen
        simp only [Option.some.injEq] at h
        subst h
        simpa using hlen
    · simp at h
  · simp at h

theorem sampleDescs_length (userProps : Option ICompoundProperty) (positions : List Vec3)
    (descs : List Nat) (h : readPointCloud.sampleDescs userProps positions = some descs) :
    descs.length = positions.length := by
  unfold readPointCloud.sampleDescs at h
  split at h
  · split at h
    · split at h
      · simp at h
      · rename_i hlen
        simp only [Option.some.injEq] at h
        subst h
        simpa using hlen
    · simp at h
  · simp at h

theorem landmark_isSome (pos_i : Vec3) (sampleColors : Option (List (ℚ × ℚ × ℚ)))
    (sampleDescs : Option (List Nat)) (point3d_i : Nat)
    (hc : ∀ colors, sampleColors = some colors → point3d_i < colors.length)
    (hd : ∀ descs, sampleDescs = some descs → point3d_i < descs.length) :
    ∃ landmark, readPointCloud.landmark pos_i sampleColors sampleDescs point3d_i
      = some landmark := by
  unfold readPointCloud.landmark
  cases sampleColors with
  | none =>
    cases sampleDescs with
    | none => exact ⟨_, rfl⟩
    | some descs =>
      have h := hd descs rfl
      simp [List.getElem?_eq_getElem h]
  | some colors =>
    have h1 := hc colors rfl
    cases sampleDescs with
    | none => simp [List.getElem?_eq_getElem h1]
    | some descs =>
      have h := hd descs rfl
      simp [List.getElem?_eq_getElem h1, List.getElem?_eq_getElem h]

theorem landmarkLoop_isSome (positions : List Vec3)
    (sampleColors : Option (List (ℚ × ℚ × ℚ))) (sampleDescs : Option (List Nat))
    (nbPointsInit : Nat)
    (hc : ∀ colors, sampleColors = some colors → colors.length = positions.length)
    (hd : ∀ descs, sampleDescs = some descs → descs.length = positions.length) :
    ∀ (n point3d_i : Nat) (structure_ : Landmarks), positions.length - point3d_i = n →
      ∃ result, readPointCloud.landmarkLoop positions sampleColors sampleDescs nbPointsInit
        point3d_i structure_ = some result := by
  intro n
  induction n with
  | zero =>
    intro i s hn
    rw [readPointCloud.landmarkLoop, dif_neg (by omega)]
    exact ⟨s, rfl⟩
  | succ n ih =>
    intro i s hn
    have hlt : i < positions.length := by omega
    rw [readPointCloud.landmarkLoop, dif_pos hlt]
    obtain ⟨lm, hlm⟩ := landmark_isSome positions[i] sampleColors sampleDescs i
      (fun colors h => by rw [hc colors h]; exact hlt)
      (fun descs h => by rw [hd descs h]; exact hlt)
    rw [hlm]
    exact ih (i + 1) _ (by omega)

/-- The three ways `readPointCloud` ends, in terms of the scene `s1` left by its first loop:
a size mismatch of the visibility properties returns `false` with `s1`; matching sizes run
the visibility loop on `s1`; a missing visibility property returns `true` with `s1`. -/
theorem readPointCloud_outcomes (ms : IPointsSchema) (mat : M44d) (sfmdata : SfMData)
    (flags_part : ESfMData) :
    ∃ s1, readPointCloud.landmarkLoop ms.positions
        (readPointCloud.sampleColors ms.arbGeomParams ms.positions)
        (readPointCloud.sampleDescs (getAbcUserProperties ms.toAbcSchema) ms.positions)
        sfmdata.structure_.length 0 sfmdata.structure_ = some s1 ∧
      (∀ u vs vi vf, getAbcUserProperties ms.toAbcSchema = some u →
        u.mvg_visibilitySize = some vs → u.mvg_visibilityIds = some vi →
        u.mvg_visibilityFeatPos = some vf →
        ((ms.positions.length ≠ vs.length ∨ vi.length ≠ vf.length) →
          readPointCloud ms mat sfmdata flags_part
            = some (false, { sfmdata with structure_ := s1 })) ∧
        (ms.positions.length = vs.length → vi.length = vf.length →
          readPointCloud ms mat sfmdata flags_part
            = (readPointCloud.visibilityLoop ms.positions vs vi vf sfmdata.structure_.length
                0 0 s1).map (fun s2 => (true, { sfmdata with structure_ := s2 })))) ∧
      ((∀ u, getAbcUserProperties ms.toAbcSchema = some u →
          u.mvg_visibilitySize = none ∨ u.mvg_visibilityIds = none ∨
            u.mvg_visibilityFeatPos = none) →
        readPointCloud ms mat sfmdata flags_part
          = some (true, { sfmdata with structure_ := s1 })) := by
  obtain ⟨s1, hs1⟩ := landmarkLoop_isSome ms.positions
    (readPointCloud.sampleColors ms.arbGeomParams ms.positions)
    (readPointCloud.sampleDescs (getAbcUserProperties ms.toAbcSchema) ms.positions)
    sfmdata.structure_.length (sampleColors_length _ _) (sampleDescs_length _ _)
    ms.positions.length 0 sfmdata.structure_ rfl
  refine ⟨s1, hs1, ?_, ?_⟩
  · intro u vs vi vf hu hvs hvi hvf
    have hs1u := hs1
    rw [hu] at hs1u
    constructor
    · intro hmis
      unfold readPointCloud
      simp only [hu, hs1u, hvs, hvi, hvf]
      by_cases h1 : ms.positions.length = vs.length
      · have h2 : vi.length ≠ vf.length := by
          rcases hmis with h | h
          · exact absurd h1 h
          · exact h
        simp [h1, h2]
      · simp [h1]
    · intro h1 h2
      unfold readPointCloud
      simp only [hu, hs1u, hvs, hvi, hvf]
      simp only [h1, h2, ne_eq, not_true_eq_false, if_false]
      cases readPointCloud.visibilityLoop ms.positions vs vi vf sfmdata.structure_.length
        0 0 s1 <;> rfl
  · intro hmiss
    unfold readPointCloud
    cases hu : getAbcUserProperties ms.toAbcSchema with
    | none =>
      rw [hu] at hs1
      simp only [hs1]
    | some u =>
      rw [hu] at hs1
      simp only [hs1]
      rcases hmiss u hu with h | h | h
      · simp [h]
      · cases hvs : u.mvg_visibilitySize <;> simp [h]
      · cases hvs : u.mvg_visibilitySize <;> cases hvi : u.mvg_visibilityIds <;> simp [h]

/-! ## Claims on the localization data and the Alembic point reader -/

/-- C12. A default-constructed `ImageLocalizerMatchData` (whatever its projection matrix holds)
has `max_iteration = 4096`; the cap is an ordinary field: overwriting it with any value `n`
gives a struct whose cap is `n` and whose other fields are as before. -/
theorem ImageLocalizerMatchData_max_iteration (projection_matrix : robustEstimation.Mat)
    (d : ImageLocalizerMatchData) (n : Nat) :
    ({ projection_matrix := projection_matrix } : ImageLocalizerMatchData).max_iteration = 4096 ∧
    ({ d with max_iteration := n }).max_iteration = n ∧
    ({ d with max_iteration := n }).projection_matrix = d.projection_matrix ∧
    ({ d with max_iteration := n }).pt3D = d.pt3D ∧
    ({ d with max_iteration := n }).pt2D = d.pt2D ∧
    ({ d with max_iteration := n }).vec_inliers = d.vec_inliers ∧
    ({ d with max_iteration := n }).vec_descType = d.vec_descType ∧
    ({ d with max_iteration := n }).error_max = d.error_max :=
  ⟨rfl, rfl, rfl, rfl, rfl, rfl, rfl, rfl⟩

/-- C13. `SfMLocalizer::RefinePose` returns `true` only if the RMSE residual of the values it
returns is strictly lower than the RMSE of the values on entry; whenever it returns `false`,
intrinsic and pose are exactly as they were on entry. -/
theorem RefinePose_true_only_if_improved {Intrinsic Pose3 : Type}
    (rmse : Intrinsic → Pose3 → ImageLocalizerMatchData → ℚ)
    (minimize : Intrinsic → Pose3 → ImageLocalizerMatchData → Bool → Bool → Intrinsic × Pose3)
    (intrinsics : Intrinsic) (pose : Pose3) (matching_data : ImageLocalizerMatchData)
    (b_refine_pose b_refine_intrinsic : Bool) :
    ((SfMLocalizer.RefinePose rmse minimize intrinsics pose matching_data b_refine_pose
          b_refine_intrinsic).1 = true →
      rmse
        (SfMLocalizer.RefinePose rmse minimize intrinsics pose matching_data b_refine_pose
          b_refine_intrinsic).2.1
        (SfMLocalizer.RefinePose rmse minimize intrinsics pose matching_data b_refine_pose
          b_refine_intrinsic).2.2 matching_data
        < rmse intrinsics pose matching_data) ∧
    ((SfMLocalizer.RefinePose rmse minimize intrinsics pose matching_data b_refine_pose
          b_refine_intrinsic).1 = false →
      (SfMLocalizer.RefinePose rmse minimize intrinsics pose matching_data b_refine_pose
          b_refine_intrinsic).2.1 = intrinsics ∧
      (SfMLocalizer.RefinePose rmse minimize intrinsics pose matching_data b_refine_pose
          b_refine_intrinsic).2.2 = pose) := by
  unfold SfMLocalizer.RefinePose
  simp only []
  generalize (if b_refine_intrinsic = true then
    (minimize intrinsics pose matching_data b_refine_pose b_refine_intrinsic).1
    else intrinsics) = refinedIntrinsics
  generalize (if b_refine_pose = true then
    (minimize intrinsics pose matching_data b_refine_pose b_refine_intrinsic).2
    else pose) = refinedPose
  by_cases h : rmse refinedIntrinsics refinedPose matching_data
      < rmse intrinsics pose matching_data
  · rw [if_pos h]
    exact ⟨fun _ => h, fun hf => by simp at hf⟩
  · rw [if_neg h]
    exact ⟨fun ht => by simp at ht, fun _ => ⟨rfl, rfl⟩⟩

/-- Witness of C13: with the test residual `|pose - 3|` and the test minimiser, refining the
pose `5` returns `true` with a lower residual, and refining the pose `3` returns `false` and
keeps intrinsic `1` and pose `3`. -/
theorem RefinePose_true_only_if_improved_witness :
    testRmse (SfMLocalizer.RefinePose testRmse testMinimize 1 5 testMatchData true false).2.1
        (SfMLocalizer.RefinePose testRmse testMinimize 1 5 testMatchData true false).2.2
        testMatchData
      < testRmse 1 5 testMatchData ∧
    ((SfMLocalizer.RefinePose testRmse testMinimize 1 3 testMatchData true true).2.1 = 1 ∧
      (SfMLocalizer.RefinePose testRmse testMinimize 1 3 testMatchData true true).2.2 = 3) :=
  ⟨(RefinePose_true_only_if_improved testRmse testMinimize 1 5 testMatchData true false).1
      (by norm_num [SfMLocalizer.RefinePose, testRmse, testMinimize]),
    (RefinePose_true_only_if_improved testRmse testMinimize 1 3 testMatchData true true).2
      (by norm_num [SfMLocalizer.RefinePose, testRmse, testMinimize])⟩

/-- C14. The static `SfMLocalizer::Localize` accepts exactly the choices `ACRANSAC` and
`LORANSAC`: the call is an invalid-argument error (which carries no pose) exactly when the
estimator is neither of the two; `ACRANSAC`, also when the argument is omitted, gives the
result of the a-contrario estimator, `LORANSAC` the result of the LO-RANSAC estimator. -/
theorem Localize_estimator_choice {Intrinsic Pose3 : Type}
    (acransac loransac : Nat × Nat → Option Intrinsic → ImageLocalizerMatchData →
      Option (Pose3 × ImageLocalizerMatchData))
    (image_size : Nat × Nat) (optional_intrinsics : Option Intrinsic)
    (resection_data : ImageLocalizerMatchData) (estimator : ERobustEstimator) :
    (SfMLocalizer.Localize acransac loransac image_size optional_intrinsics resection_data
        estimator = Except.error LocalizeError.invalidArgument ↔
      (estimator ≠ ERobustEstimator.ACRANSAC ∧ estimator ≠ ERobustEstimator.LORANSAC)) ∧
    SfMLocalizer.Localize acransac loransac image_size optional_intrinsics resection_data
        ERobustEstimator.ACRANSAC
      = Except.ok (acransac image_size optional_intrinsics resection_data) ∧
    SfMLocalizer.Localize acransac loransac image_size optional_intrinsics resection_data
      = Except.ok (acransac image_size optional_intrinsics resection_data) ∧
    SfMLocalizer.Localize acransac loransac image_size optional_intrinsics resection_data
        ERobustEstimator.LORANSAC
      = Except.ok (loransac image_size optional_intrinsics resection_data) := by
  refine ⟨?_, rfl, rfl, rfl⟩
  cases estimator <;> simp [SfMLocalizer.Localize]

/-- C16, evaluated at a failing input: the point object `shortVisibility` passes both size
checks of `readPointCloud` (one position for one entry of `mvg_visibilitySize`; the arrays
`mvg_visibilityIds` and `mvg_visibilityFeatPos` both of length `0`), yet the observation
loop reads the index `obsGlobal_i = 0`, which is not smaller than the length of the array
read: the call makes an out-of-range read. -/
theorem readPointCloud_reads_past_visibility_arrays :
    (∃ u vs vi vf, getAbcUserProperties shortVisibility.toAbcSchema = some u ∧
      u.mvg_visibilitySize = some vs ∧ u.mvg_visibilityIds = some vi ∧
      u.mvg_visibilityFeatPos = some vf ∧
      shortVisibility.positions.length = vs.length ∧ vi.length = vf.length ∧
      vs[0]? = some 1 ∧ ¬ 0 < vi.length ∧
      readPointCloud.observationLoop vi vf 1 0 0 Landmark.default = none) ∧
    readPointCloud shortVisibility [] { structure_ := [] } 0 = none := by
  constructor
  · refine ⟨_, [1], [], [], rfl, rfl, rfl, rfl, rfl, rfl, rfl, by simp, ?_⟩
    simp [readPointCloud.observationLoop]
  · simp [readPointCloud, readPointCloud.landmarkLoop, readPointCloud.landmark,
      readPointCloud.sampleColors, readPointCloud.sampleDescs, getAbcUserProperties,
      shortVisibility, mapAssign, readPointCloud.visibilityLoop,
      readPointCloud.observationLoop, ICompoundProperty.getNumProperties]

/-- C17, evaluated at a failing input: on the scene whose only landmark has the key `1`,
reading a point object with one position returns `true`, but the scene still holds one
landmark (not two) and the landmark that was stored under the key `1` has been replaced by
the new point. -/
theorem readPointCloud_overwrites_landmark :
    onePoint.positions.length = 1 ∧
    sceneWithKeyOne.structure_.length = 1 ∧
    sceneWithKeyOne.structure_.lookup 1
      = some { X := (9, 9, 9), descType := EImageDescriberType.UNKNOWN } ∧
    ∃ s, readPointCloud onePoint [] sceneWithKeyOne 0 = some (true, s) ∧
      s.structure_.length = 1 ∧
      s.structure_.lookup 1
        = some { X := (1, 2, 3), descType := EImageDescriberType.UNKNOWN } := by
  refine ⟨rfl, rfl, rfl, ⟨SfMData.mk [(1, Landmark.mk (1, 2, 3) EImageDescriberType.UNKNOWN
    none [])] [] [] [] [], ?_, rfl, rfl⟩⟩
  simp [readPointCloud, readPointCloud.landmarkLoop, readPointCloud.landmark,
    readPointCloud.sampleColors, readPointCloud.sampleDescs, getAbcUserProperties, onePoint,
    sceneWithKeyOne, mapAssign]

theorem lookup_mapAssign_self {V : Type} :
    ∀ (m : List (IndexT × V)) (k : IndexT) (v : V), (mapAssign m k v).lookup k = some v
  | [], k, v => by simp [mapAssign, List.lookup]
  | (k0, v0) :: rest, k, v => by
    unfold mapAssign
    by_cases h : k0 = k
    · simp [h, List.lookup]
    · have hne : (k == k0) = false := by simpa using fun e => h e.symm
      simp [h, List.lookup, hne, lookup_mapAssign_self rest k v]

theorem lookup_mapAssign_ne {V : Type} :
    ∀ (m : List (IndexT × V)) (k k1 : IndexT) (v : V), k1 ≠ k →
      (mapAssign m k v).lookup k1 = m.lookup k1
  | [], k, k1, v, hne => by
    have h : (k1 == k) = false := by simpa using hne
    simp [mapAssign, List.lookup, h]
  | (k0, v0) :: rest, k, k1, v, hne => by
    unfold mapAssign
    by_cases h : k0 = k
    · subst h
      have h1 : (k1 == k0) = false := by simpa using hne
      simp [List.lookup, h1]
    · simp only [h, if_false, List.lookup]
      rw [lookup_mapAssign_ne rest k k1 v hne]

theorem landmark_fields (pos_i : Vec3) (sampleColors : Option (List (ℚ × ℚ × ℚ)))
    (sampleDescs : Option (List Nat)) (point3d_i : Nat) (landmark : Landmark)
    (h : readPointCloud.landmark pos_i sampleColors sampleDescs point3d_i = some landmark) :
    landmark.X = pos_i ∧ landmark.observations = [] ∧
    (sampleColors = none → landmark.rgb = none) ∧
    (∀ colors, sampleColors = some colors →
      ∃ c, colors[point3d_i]? = some c ∧ landmark.rgb = some c) ∧
    (sampleDescs = none → landmark.descType = EImageDescriberType.UNKNOWN) ∧
    (∀ descs, sampleDescs = some descs →
      ∃ d, descs[point3d_i]? = some d ∧ landmark.descType = EImageDescriberType.ofCode d) := by
  unfold readPointCloud.landmark at h
  cases sampleColors with
  | none =>
    cases sampleDescs with
    | none =>
      simp only [Option.some.injEq] at h
      subst h
      simp
    | some descs =>
      cases hd : descs[point3d_i]? with
      | none => simp [hd] at h
      | some d =>
        simp only [hd, Option.some.injEq] at h
        subst h
        simp [hd]
  | some colors =>
    cases hc : colors[point3d_i]? with
    | none => simp [hc] at h
    | some c =>
      cases sampleDescs with
      | none =>
        simp only [hc, Option.some.injEq] at h
        subst h
        simp [hc]
      | some descs =>
        cases hd : descs[point3d_i]? with
        | none => simp [hc, hd] at h
        | some d =>
          simp only [hc, hd, Option.some.injEq] at h
          subst h
          simp [hc, hd]

theorem landmarkLoop_lookup (positions : List Vec3)
    (sampleColors : Option (List (ℚ × ℚ × ℚ))) (sampleDescs : Option (List Nat))
    (nbPointsInit : Nat) :
    ∀ (n point3d_i : Nat) (structure_ result : Landmarks),
      positions.length - point3d_i = n →
      readPointCloud.landmarkLoop positions sampleColors sampleDescs nbPointsInit
        point3d_i structure_ = some result →
      (∀ (j : Nat) (hj : j < positions.length), point3d_i ≤ j →
        ∃ landmark, readPointCloud.landmark positions[j] sampleColors sampleDescs j
            = some landmark ∧
          result.lookup (nbPointsInit + j) = some landmark) ∧
      (∀ k, (k < nbPointsInit + point3d_i ∨ nbPointsInit + positions.length ≤ k) →
        result.lookup k = structure_.lookup k) := by
  intro n
  induction n with
  | zero =>
    intro i s res hn h
    rw [readPointCloud.landmarkLoop, dif_neg (by omega)] at h
    cases h
    exact ⟨fun j hj hij => absurd hj (by omega), fun _ _ => rfl⟩
  | succ n ih =>
    intro i s res hn h
    have hlt : i < positions.length := by omega
    rw [readPointCloud.landmarkLoop, dif_pos hlt] at h
    cases hlm : readPointCloud.landmark positions[i] sampleColors sampleDescs i with
    | none => simp [hlm] at h
    | some lm =>
      simp only [hlm] at h
      obtain ⟨hnew, hold⟩ := ih (i + 1) _ res (by omega) h
      constructor
      · intro j hj hij
        by_cases hji : j = i
        · subst hji
          refine ⟨lm, hlm, ?_⟩
          rw [hold (nbPointsInit + j) (Or.inl (by omega)), lookup_mapAssign_self]
        · exact hnew j hj (by omega)
      · intro k hk
        have hne : k ≠ nbPointsInit + i := by omega
        rw [hold k (by omega), lookup_mapAssign_ne s (nbPointsInit + i) k lm hne]

/-- A call of `readPointCloud` that returns `false` leaves the scene as its first loop left
it. -/
theorem readPointCloud_false_scene (ms : IPointsSchema) (mat : M44d) (sfmdata : SfMData)
    (flags_part : ESfMData) (s : SfMData)
    (h : readPointCloud ms mat sfmdata flags_part = some (false, s)) :
    ∃ s1, readPointCloud.landmarkLoop ms.positions
        (readPointCloud.sampleColors ms.arbGeomParams ms.positions)
        (readPointCloud.sampleDescs (getAbcUserProperties ms.toAbcSchema) ms.positions)
        sfmdata.structure_.length 0 sfmdata.structure_ = some s1 ∧
      s = { sfmdata with structure_ := s1 } := by
  obtain ⟨s1, hs1, hpresent, habsent⟩ := readPointCloud_outcomes ms mat sfmdata flags_part
  refine ⟨s1, hs1, ?_⟩
  by_cases hall : ∃ u vs vi vf, getAbcUserProperties ms.toAbcSchema = some u ∧
      u.mvg_visibilitySize = some vs ∧ u.mvg_visibilityIds = some vi ∧
      u.mvg_visibilityFeatPos = some vf
  · obtain ⟨u, vs, vi, vf, hu, hvs, hvi, hvf⟩ := hall
    obtain ⟨hfalse, htrue⟩ := hpresent u vs vi vf hu hvs hvi hvf
    by_cases hmis : ms.positions.length ≠ vs.length ∨ vi.length ≠ vf.length
    · rw [hfalse hmis] at h
      cases h
      rfl
    · have h1 : ms.positions.length = vs.length := by
        by_contra hc
        exact hmis (Or.inl hc)
      have h2 : vi.length = vf.length := by
        by_contra hc
        exact hmis (Or.inr hc)
      rw [htrue h1 h2] at h
      obtain ⟨s2, _, hs2⟩ := Option.map_eq_some'.mp h
      simp at hs2
  · have hmiss : ∀ u, getAbcUserProperties ms.toAbcSchema = some u →
        u.mvg_visibilitySize = none ∨ u.mvg_visibilityIds = none ∨
          u.mvg_visibilityFeatPos = none := by
      intro u hu
      cases hvs : u.mvg_visibilitySize with
      | none => exact Or.inl rfl
      | some vs =>
        cases hvi : u.mvg_visibilityIds with
        | none => exact Or.inr (Or.inl rfl)
        | some vi =>
          cases hvf : u.mvg_visibilityFeatPos with
          | none => exact Or.inr (Or.inr rfl)
          | some vf => exact absurd ⟨u, vs, vi, vf, hu, hvs, hvi, hvf⟩ hall
    rw [habsent hmiss] at h
    simp at h

/-- C22. `readPointCloud` is not atomic on failure: whenever it returns `false` (which it
does only on a visibility size mismatch), the structure of the scene it leaves holds, at
every key `nbPointsInit + i` with `i < P`, a landmark with the position `i`, with the colour
`i` and the describer type `i` when these samples were accepted, and with no observation;
every key outside `[nbPointsInit, nbPointsInit + P)` holds what it held before, so no
observation has been added by the call. -/
theorem readPointCloud_failure_keeps_landmarks (ms : IPointsSchema) (mat : M44d)
    (sfmdata : SfMData) (flags_part : ESfMData) (s : SfMData)
    (h : readPointCloud ms mat sfmdata flags_part = some (false, s)) :
    (∀ (i : Nat) (hi : i < ms.positions.length),
      ∃ landmark, s.structure_.lookup (sfmdata.structure_.length + i) = some landmark ∧
        landmark.X = ms.positions[i] ∧ landmark.observations = [] ∧
        (readPointCloud.sampleColors ms.arbGeomParams ms.positions = none →
          landmark.rgb = none) ∧
        (∀ colors, readPointCloud.sampleColors ms.arbGeomParams ms.positions = some colors →
          ∃ c, colors[i]? = some c ∧ landmark.rgb = some c) ∧
        (readPointCloud.sampleDescs (getAbcUserProperties ms.toAbcSchema) ms.positions = none →
          landmark.descType = EImageDescriberType.UNKNOWN) ∧
        (∀ descs, readPointCloud.sampleDescs (getAbcUserProperties ms.toAbcSchema)
            ms.positions = some descs →
          ∃ d, descs[i]? = some d ∧ landmark.descType = EImageDescriberType.ofCode d)) ∧
    (∀ k, (k < sfmdata.structure_.length ∨
        sfmdata.structure_.length + ms.positions.length ≤ k) →
      s.structure_.lookup k = sfmdata.structure_.lookup k) := by
  obtain ⟨s1, hs1, rfl⟩ := readPointCloud_false_scene ms mat sfmdata flags_part s h
  obtain ⟨hnew, hold⟩ := landmarkLoop_lookup ms.positions _ _ sfmdata.structure_.length
    ms.positions.length 0 sfmdata.structure_ s1 rfl hs1
  constructor
  · intro i hi
    obtain ⟨lm, hlm, hlook⟩ := hnew i hi (Nat.zero_le i)
    exact ⟨lm, hlook, landmark_fields _ _ _ _ _ hlm⟩
  · intro k hk
    exact hold k (by omega)

/-- Witness of C22: the point object `badVisibilitySize` (two positions with describer types,
one entry in `mvg_visibilitySize`) read into the scene `sceneWithKeyZero`; the call returns
`false` and leaves the scene `sceneAfterFailure`, which holds the second point, without
observation, under the key `1 + 1`. -/
theorem readPointCloud_failure_keeps_landmarks_witness :
    ∃ landmark,
      sceneAfterFailure.structure_.lookup (sceneWithKeyZero.structure_.length + 1)
        = some landmark ∧
      landmark.X = (4, 5, 6) ∧ landmark.observations = [] :=
  let ⟨lm, h1, h2, h3, _⟩ := (readPointCloud_failure_keeps_landmarks badVisibilitySize []
    sceneWithKeyZero 0 sceneAfterFailure
    (by
      simp [readPointCloud, readPointCloud.landmarkLoop, readPointCloud.landmark,
        readPointCloud.sampleColors, readPointCloud.sampleDescs, getAbcUserProperties,
        badVisibilitySize, mapAssign, ICompoundProperty.getNumProperties,
        sceneWithKeyZero, sceneAfterFailure])).1 1 (by decide)
  ⟨lm, h1, h2, h3⟩

/-! ## The camera reader -/

theorem store_fields (l : readCamera.Locals) (view : View) (sfmData : SfMData)
    (flags_part : ESfMData) :
    (readCamera.store l view sfmData flags_part).structure_ = sfmData.structure_ ∧
    (readCamera.store l view sfmData flags_part).poses = sfmData.poses ∧
    (readCamera.store l view sfmData flags_part).rigs = sfmData.rigs ∧
    (readCamera.store l view sfmData flags_part).views =
      (if ESfMData.test flags_part ESfMData.VIEWS then mapAssign sfmData.views l.viewId view
        else sfmData.views) ∧
    (readCamera.store l view sfmData flags_part).intrinsics =
      (if ESfMData.test flags_part ESfMData.INTRINSICS then
        mapAssign sfmData.intrinsics l.intrinsicId
          { intrinsicType := l.mvg_intrinsicType, width := view.width,
            height := view.height, params := l.mvg_intrinsicParams }
        else sfmData.intrinsics) := by
  unfold readCamera.store
  cases ESfMData.test flags_part ESfMData.INTRINSICS <;>
    cases ESfMData.test flags_part ESfMData.VIEWS <;> simp

theorem extrinsics_of_rig (isPartOfRig : View → Bool)
    (setPose : SfMData → View → Pose3 → SfMData) (view : View) (pose : Pose3)
    (s result : SfMData) (hrig : isPartOfRig view = true)
    (h : readCamera.extrinsics isPartOfRig setPose view pose s = some result) :
    ∃ rig subPose, s.rigs.lookup view.rigId = some rig ∧
      rig[view.subPoseId]? = some subPose ∧
      result.structure_ = s.structure_ ∧ result.views = s.views ∧
      result.intrinsics = s.intrinsics ∧ result.poses = s.poses ∧
      (subPose.status = ERigSubPoseStatus.UNINITIALIZED →
        result.rigs = mapAssign s.rigs view.rigId
          (rig.set view.subPoseId { status := ERigSubPoseStatus.ESTIMATED, pose := pose })) ∧
      (subPose.status ≠ ERigSubPoseStatus.UNINITIALIZED → result.rigs = s.rigs) := by
  unfold readCamera.extrinsics at h
  rw [if_pos hrig] at h
  cases hl : s.rigs.lookup view.rigId with
  | none => simp [hl] at h
  | some rig =>
    cases hs : rig[view.subPoseId]? with
    | none => simp [hl, hs] at h
    | some subPose =>
      simp only [hl, hs] at h
      refine ⟨rig, subPose, rfl, hs, ?_⟩
      by_cases hst : subPose.status = ERigSubPoseStatus.UNINITIALIZED
      · rw [if_pos hst] at h
        cases h
        exact ⟨rfl, rfl, rfl, rfl, fun _ => rfl, fun hn => absurd hst hn⟩
      · rw [if_neg hst] at h
        cases h
        exact ⟨rfl, rfl, rfl, rfl, fun hu => absurd hu hst, fun _ => rfl⟩

theorem extrinsics_of_rig_isSome (isPartOfRig : View → Bool)
    (setPose : SfMData → View → Pose3 → SfMData) (view : View) (pose : Pose3)
    (s : SfMData) (rig : Rig) (subPose : RigSubPose)
    (hl : s.rigs.lookup view.rigId = some rig) (hs : rig[view.subPoseId]? = some subPose) :
    ∃ result, readCamera.extrinsics isPartOfRig setPose view pose s = some result := by
  unfold readCamera.extrinsics
  cases isPartOfRig view with
  | false => exact ⟨_, rfl⟩
  | true =>
    simp only [hl, hs, if_true]
    by_cases hst : subPose.status = ERigSubPoseStatus.UNINITIALIZED
    · rw [if_pos hst]
      exact ⟨_, rfl⟩
    · rw [if_neg hst]
      exact ⟨_, rfl⟩

/-- What a call of `readCamera` that returns has done: it built a view, returned `true`, and
left either the scene of the `INTRINSICS` and `VIEWS` blocks or, when `EXTRINSICS` is asked
for, what the `EXTRINSICS` branch made of that scene. -/
theorem readCamera_eq_some (isPartOfRig : View → Bool)
    (setPose : SfMData → View → Pose3 → SfMData) (NDEBUG : Bool) (camera : ICameraSchema)
    (mat : M44d) (sfmData : SfMData) (flags_part : ESfMData) (sampleFrame : Nat)
    (r : Bool × SfMData)
    (h : readCamera isPartOfRig setPose NDEBUG camera mat sfmData flags_part sampleFrame
      = some r) :
    ∃ view, readCamera.view
        (readCamera.locals (getAbcUserProperties camera.toAbcSchema) sfmData flags_part)
        flags_part = some view ∧
      r.1 = true ∧
      ((ESfMData.test flags_part ESfMData.EXTRINSICS = true ∧
          readCamera.extrinsics isPartOfRig setPose view (readCamera.pose mat)
            (readCamera.store
              (readCamera.locals (getAbcUserProperties camera.toAbcSchema) sfmData flags_part)
              view sfmData flags_part) = some r.2) ∨
        (ESfMData.test flags_part ESfMData.EXTRINSICS = false ∧
          r.2 = readCamera.store
            (readCamera.locals (getAbcUserProperties camera.toAbcSchema) sfmData flags_part)
            view sfmData flags_part)) := by
  unfold readCamera at h
  simp only [] at h
  by_cases hassert : NDEBUG = false ∧
      (readCamera.locals (getAbcUserProperties camera.toAbcSchema) sfmData
        flags_part).sensorSize_pix.length ≠ 2
  · rw [if_pos hassert] at h
    simp at h
  · rw [if_neg hassert] at h
    cases hv : readCamera.view
        (readCamera.locals (getAbcUserProperties camera.toAbcSchema) sfmData flags_part)
        flags_part with
    | none => simp [hv] at h
    | some view =>
      simp only [hv] at h
      refine ⟨view, rfl, ?_⟩
      by_cases hext : ESfMData.test flags_part ESfMData.EXTRINSICS = true
      · rw [if_pos hext] at h
        cases he : readCamera.extrinsics isPartOfRig setPose view (readCamera.pose mat)
            (readCamera.store
              (readCamera.locals (getAbcUserProperties camera.toAbcSchema) sfmData flags_part)
              view sfmData flags_part) with
        | none => simp [he] at h
        | some s2 =>
          simp only [he, Option.some.injEq] at h
          subst h
          exact ⟨rfl, Or.inl ⟨hext, rfl⟩⟩
      · rw [if_neg hext] at h
        simp only [Option.some.injEq] at h
        subst h
        exact ⟨rfl, Or.inr ⟨by simpa using hext, rfl⟩⟩

/-- A call of `readCamera` returns when the assertion holds, the view can be built and, if
`EXTRINSICS` is asked for, the `EXTRINSICS` branch has a result. -/
theorem readCamera_isSome (isPartOfRig : View → Bool)
    (setPose : SfMData → View → Pose3 → SfMData) (NDEBUG : Bool) (camera : ICameraSchema)
    (mat : M44d) (sfmData : SfMData) (flags_part : ESfMData) (sampleFrame : Nat) (view : View)
    (hassert : ¬ (NDEBUG = false ∧
      (readCamera.locals (getAbcUserProperties camera.toAbcSchema) sfmData
        flags_part).sensorSize_pix.length ≠ 2))
    (hv : readCamera.view
      (readCamera.locals (getAbcUserProperties camera.toAbcSchema) sfmData flags_part)
      flags_part = some view)
    (hext : ESfMData.test flags_part ESfMData.EXTRINSICS = true →
      ∃ s2, readCamera.extrinsics isPartOfRig setPose view (readCamera.pose mat)
        (readCamera.store
          (readCamera.locals (getAbcUserProperties camera.toAbcSchema) sfmData flags_part)
          view sfmData flags_part) = some s2) :
    ∃ s2, readCamera isPartOfRig setPose NDEBUG camera mat sfmData flags_part sampleFrame
      = some (true, s2) := by
  unfold readCamera
  simp only []
  rw [if_neg hassert]
  simp only [hv]
  by_cases hx : ESfMData.test flags_part ESfMData.EXTRINSICS = true
  · obtain ⟨s2, hs2⟩ := hext hx
    rw [if_pos hx]
    simp only [hs2]
    exact ⟨s2, rfl⟩
  · rw [if_neg hx]
    exact ⟨_, rfl⟩

/-- What a returning call of `readCamera` with `EXTRINSICS` does for a view that is part of a
rig: the rig and the sub-pose of the view exist, the sub-pose is written exactly when its
status is `UNINITIALIZED`, and the pose map is left alone. -/
theorem readCamera_rig_effect (isPartOfRig : View → Bool)
    (setPose : SfMData → View → Pose3 → SfMData) (NDEBUG : Bool) (camera : ICameraSchema)
    (mat : M44d) (sfmData : SfMData) (flags_part : ESfMData) (sampleFrame : Nat) (view : View)
    (r : Bool × SfMData)
    (hview : readCamera.view
      (readCamera.locals (getAbcUserProperties camera.toAbcSchema) sfmData flags_part)
      flags_part = some view)
    (hrig : isPartOfRig view = true)
    (hext : ESfMData.test flags_part ESfMData.EXTRINSICS = true)
    (hr : readCamera isPartOfRig setPose NDEBUG camera mat sfmData flags_part sampleFrame
      = some r) :
    ∃ rig subPose, sfmData.rigs.lookup view.rigId = some rig ∧
      rig[view.subPoseId]? = some subPose ∧
      (subPose.status = ERigSubPoseStatus.UNINITIALIZED →
        r.2.rigs = mapAssign sfmData.rigs view.rigId
          (rig.set view.subPoseId
            { status := ERigSubPoseStatus.ESTIMATED, pose := readCamera.pose mat })) ∧
      (subPose.status ≠ ERigSubPoseStatus.UNINITIALIZED → r.2.rigs = sfmData.rigs) ∧
      r.2.poses = sfmData.poses := by
  obtain ⟨view0, hv0, _, hcase⟩ := readCamera_eq_some isPartOfRig setPose NDEBUG camera mat
    sfmData flags_part sampleFrame r hr
  rw [hview] at hv0
  cases hv0
  rcases hcase with ⟨_, he⟩ | ⟨hne, _⟩
  · obtain ⟨rig, subPose, hl, hs, _, _, _, hp, hun, hnu⟩ :=
      extrinsics_of_rig isPartOfRig setPose view (readCamera.pose mat) _ r.2 hrig he
    obtain ⟨_, hsp, hsr, _, _⟩ := store_fields
      (readCamera.locals (getAbcUserProperties camera.toAbcSchema) sfmData flags_part) view sfmData flags_part
    rw [hsr] at hl hun hnu
    rw [hsp] at hp
    exact ⟨rig, subPose, hl, hs, hun, hnu, hp⟩
  · rw [hext] at hne
    cases hne

/-- C23. For a view that is part of a rig, a returning call of `readCamera` with `EXTRINSICS`
writes the rig sub-pose of the view only when its status is `UNINITIALIZED` (it then holds
the pose read and the status `ESTIMATED`); with any other status the rigs are left
unchanged; the pose map of the scene is not written; and a later call for a view of the same
rig sub-pose changes neither the rigs nor the pose map, so the first pose read is kept. The
call returns whenever the assertion holds and the rig and the sub-pose exist. -/
theorem readCamera_rig_subPose_written_once (isPartOfRig : View → Bool)
    (setPose : SfMData → View → Pose3 → SfMData) (NDEBUG : Bool) (camera : ICameraSchema)
    (mat : M44d) (sfmData : SfMData) (flags_part : ESfMData) (sampleFrame : Nat) (view : View)
    (hview : readCamera.view
      (readCamera.locals (getAbcUserProperties camera.toAbcSchema) sfmData flags_part)
      flags_part = some view)
    (hrig : isPartOfRig view = true)
    (hext : ESfMData.test flags_part ESfMData.EXTRINSICS = true) :
    (∀ r, readCamera isPartOfRig setPose NDEBUG camera mat sfmData flags_part sampleFrame
        = some r →
      ∃ rig subPose, sfmData.rigs.lookup view.rigId = some rig ∧
        rig[view.subPoseId]? = some subPose ∧
        (subPose.status = ERigSubPoseStatus.UNINITIALIZED →
          r.2.rigs = mapAssign sfmData.rigs view.rigId
            (rig.set view.subPoseId
              { status := ERigSubPoseStatus.ESTIMATED, pose := readCamera.pose mat })) ∧
        (subPose.status ≠ ERigSubPoseStatus.UNINITIALIZED → r.2.rigs = sfmData.rigs) ∧
        r.2.poses = sfmData.poses ∧
        (∀ (NDEBUG2 : Bool) (camera2 : ICameraSchema) (mat2 : M44d) (flags2 : ESfMData)
            (sampleFrame2 : Nat) (view2 : View) (r2 : Bool × SfMData),
          readCamera.view
            (readCamera.locals (getAbcUserProperties camera2.toAbcSchema) r.2 flags2)
            flags2 = some view2 →
          isPartOfRig view2 = true →
          ESfMData.test flags2 ESfMData.EXTRINSICS = true →
          view2.rigId = view.rigId → view2.subPoseId = view.subPoseId →
          readCamera isPartOfRig setPose NDEBUG2 camera2 mat2 r.2 flags2 sampleFrame2
            = some r2 →
          r2.2.rigs = r.2.rigs ∧ r2.2.poses = r.2.poses)) ∧
    ((¬ (NDEBUG = false ∧ (readCamera.locals (getAbcUserProperties camera.toAbcSchema) sfmData flags_part).sensorSize_pix.length ≠ 2)) →
      ∀ rig subPose, sfmData.rigs.lookup view.rigId = some rig →
        rig[view.subPoseId]? = some subPose →
        ∃ s2, readCamera isPartOfRig setPose NDEBUG camera mat sfmData flags_part sampleFrame
          = some (true, s2)) := by
  constructor
  · intro r hr
    obtain ⟨rig, subPose, hl, hs, hun, hnu, hp⟩ := readCamera_rig_effect isPartOfRig setPose
      NDEBUG camera mat sfmData flags_part sampleFrame view r hview hrig hext hr
    refine ⟨rig, subPose, hl, hs, hun, hnu, hp, ?_⟩
    intro NDEBUG2 camera2 mat2 flags2 sampleFrame2 view2 r2 hview2 hrig2 hext2 hrid hsid hr2
    obtain ⟨rig2, subPose2, hl2, hs2, _, hnu2, hp2⟩ := readCamera_rig_effect isPartOfRig
      setPose NDEBUG2 camera2 mat2 r.2 flags2 sampleFrame2 view2 r2 hview2 hrig2 hext2 hr2
    refine ⟨hnu2 ?_, hp2⟩
    rw [hrid] at hl2
    rw [hsid] at hs2
    by_cases hst : subPose.status = ERigSubPoseStatus.UNINITIALIZED
    · rw [hun hst, lookup_mapAssign_self] at hl2
      cases hl2
      obtain ⟨hlt, _⟩ := List.getElem?_eq_some.mp hs
      rw [List.getElem?_set_self hlt] at hs2
      cases hs2
      simp
    · rw [hnu hst, hl] at hl2
      cases hl2
      rw [hs] at hs2
      cases hs2
      exact hst
  · intro hassert rig subPose hl hs
    apply readCamera_isSome isPartOfRig setPose NDEBUG camera mat sfmData flags_part sampleFrame
      view hassert hview
    intro _
    obtain ⟨_, _, hsr, _, _⟩ := store_fields
      (readCamera.locals (getAbcUserProperties camera.toAbcSchema) sfmData flags_part) view sfmData flags_part
    exact extrinsics_of_rig_isSome isPartOfRig setPose view (readCamera.pose mat) _ rig subPose
      (by rw [hsr]; exact hl) hs

/-- Witness of C23: the camera `rigCamera` (rig `5`, sub-pose `0`) read with `VIEWS` and
`EXTRINSICS` into the scene `sceneWithRig`: the call returns. -/
theorem readCamera_rig_subPose_written_once_witness :
    ∃ s2, readCamera testIsPartOfRig testSetPose true rigCamera translationMat sceneWithRig 3 0
      = some (true, s2) :=
  (readCamera_rig_subPose_written_once testIsPartOfRig testSetPose true rigCamera
    translationMat sceneWithRig 3 0
    (View.mk [] 3 0 0 640 480 5 0 (some UndefinedIndexT)) rfl rfl rfl).2
    (by decide)
    [RigSubPose.mk ERigSubPoseStatus.UNINITIALIZED identityPose]
    (RigSubPose.mk ERigSubPoseStatus.UNINITIALIZED identityPose) rfl rfl

end sfm

namespace voctree

theorem load_cons {DescriptorT : Type} (f : DescriptorFile DescriptorT)
    (files : List (DescriptorFile DescriptorT)) (n : Nat) (d : List DescriptorT)
    (nf : List Nat) :
    readDescFromFiles.load (f :: files) (n, d, nf)
      = readDescFromFiles.load files
          ((d ++ f.descs).length, d ++ f.descs, nf ++ [(d ++ f.descs).length - n]) := rfl

theorem load_of_counter_eq_size {DescriptorT : Type} :
    ∀ (files : List (DescriptorFile DescriptorT)) (d : List DescriptorT) (nf : List Nat),
      readDescFromFiles.load files (d.length, d, nf)
        = (d.length + (files.map (fun f => f.descs.length)).sum,
            d ++ (files.map (fun f => f.descs)).flatten,
            nf ++ files.map (fun f => f.descs.length))
  | [], d, nf => by simp [readDescFromFiles.load]
  | f :: files, d, nf => by
    rw [load_cons, load_of_counter_eq_size files]
    simp [Nat.add_assoc]

theorem precompute_nil {DescriptorT : Type} (static_size : Nat) :
    readDescFromFiles.precompute static_size ([] : List (DescriptorFile DescriptorT))
      = (0, 0) := rfl

/-- C19, evaluated at a failing input: with one descriptor already in `descriptors` on entry,
loading the single file `oneDescriptorFile` (one descriptor, and the first loop counts one)
appends the entry `2` to `numFeatures`, not the number `1` of descriptors loaded from that
file, and returns `2` (assertions compiled out); with assertions on, the final
`assert(numDescriptors == numDescriptorsCheck)` fails on this input. The counter restarts at
`0` although the entries are differences of `descriptors.size()`. -/
theorem readDescFromFiles_entry_counts_initial_descriptors :
    readDescFromFiles.precompute 1 [oneDescriptorFile] = (1, 1) ∧
    oneDescriptorFile.descs.length = 1 ∧
    (∃ r, readDescFromFiles 1 true [oneDescriptorFile] [100] [] = some r ∧
      r.descriptors = [100, 7] ∧ r.numFeatures = [2] ∧ r.returned = 2) ∧
    (readDescFromFiles 1 false [oneDescriptorFile] [100] []).isNone = true :=
  ⟨rfl, rfl, ⟨_, rfl, rfl, rfl, rfl⟩, rfl⟩

/-- What `readDescFromFiles` does when it loads (the first loop found a non-zero
`bytesPerElement`): whatever `descriptors` and `numFeatures` hold on entry, a call that
returns has appended exactly one entry per listed file to `numFeatures` and returns the sum
of the appended entries; when `descriptors` is empty on entry, the entry appended for a file
equals the number of descriptors loaded from that file. The call returns when assertions
are compiled out. -/
theorem readDescFromFiles_numFeatures {DescriptorT : Type} (static_size : Nat) (NDEBUG : Bool)
    (descriptorsFiles : List (DescriptorFile DescriptorT)) (descriptors : List DescriptorT)
    (numFeatures : List Nat)
    (hload : (readDescFromFiles.precompute static_size descriptorsFiles).2 ≠ 0) :
    (∀ r, readDescFromFiles static_size NDEBUG descriptorsFiles descriptors numFeatures = some r →
      ∃ entries, r.numFeatures = numFeatures ++ entries ∧
        entries.length = descriptorsFiles.length ∧ r.returned = entries.sum ∧
        (descriptors = [] → entries = descriptorsFiles.map (fun f => f.descs.length))) ∧
    (NDEBUG = true →
      ∃ r, readDescFromFiles static_size NDEBUG descriptorsFiles descriptors numFeatures
        = some r) := by
  cases descriptorsFiles with
  | nil => exact absurd (by rw [precompute_nil]) hload
  | cons f files =>
    have hl : readDescFromFiles.load (f :: files) (0, descriptors, numFeatures)
        = ((descriptors ++ f.descs).length + (files.map (fun f => f.descs.length)).sum,
            (descriptors ++ f.descs) ++ (files.map (fun f => f.descs)).flatten,
            (numFeatures ++ [(descriptors ++ f.descs).length])
              ++ files.map (fun f => f.descs.length)) := by
      rw [load_cons, Nat.sub_zero, load_of_counter_eq_size]
    constructor
    · intro r hr
      unfold readDescFromFiles at hr
      simp only [if_neg hload, hl] at hr
      split_ifs at hr
      cases hr
      refine ⟨(descriptors ++ f.descs).length :: files.map (fun f => f.descs.length),
        by simp, by simp, by simp, ?_⟩
      intro hd
      subst hd
      simp
    · intro hnd
      unfold readDescFromFiles
      simp only [if_neg hload, hl, hnd]
      simp

/-- The files `oneDescriptorFile` and `twoDescriptorFile`, loaded into an empty `descriptors`
with `numFeatures = [5]` on entry: one entry per file is appended. -/
theorem readDescFromFiles_numFeatures_witness :
    (∀ r, readDescFromFiles 1 true [oneDescriptorFile, twoDescriptorFile] [] [5] = some r →
      ∃ entries, r.numFeatures = [5] ++ entries ∧
        entries.length = [oneDescriptorFile, twoDescriptorFile].length ∧
        r.returned = entries.sum ∧
        (([] : List Nat) = [] →
          entries = [oneDescriptorFile, twoDescriptorFile].map (fun f => f.descs.length))) ∧
    (true = true →
      ∃ r, readDescFromFiles 1 true [oneDescriptorFile, twoDescriptorFile] [] [5] = some r) :=
  readDescFromFiles_numFeatures 1 true [oneDescriptorFile, twoDescriptorFile] [] [5]
    (by decide)

end voctree

namespace convertUID

theorem findIdx_of_mem (c : Char) :
    ∀ (s : List Char), c ∈ s →
      ∃ i, findIdx s c = some i ∧ i < s.length ∧ s.take (i + 1) = upToFirst c s
  | [], h => by simp at h
  | x :: xs, h => by
    by_cases hx : x = c
    · exact ⟨0, by simp [findIdx, hx], by simp, by simp [upToFirst, hx]⟩
    · have hmem : c ∈ xs := by
        rcases List.mem_cons.mp h with h1 | h1
        · exact absurd h1.symm hx
        · exact h1
      obtain ⟨i, hi, hlt, htake⟩ := findIdx_of_mem c xs hmem
      exact ⟨i + 1, by simp [findIdx, hx, hi], by simpa using hlt,
        by simp [upToFirst, hx, htake]⟩

theorem substr_last_of_concat (ys : List Char) (a : Char) :
    substr (ys ++ [a])
      (if (ys ++ [a]).length = 0 then npos else (ys ++ [a]).length - 1) (ys ++ [a]).length
      = some [a] := by
  have hpos : (if (ys ++ [a]).length = 0 then npos else (ys ++ [a]).length - 1)
      = ys.length := by
    simp
  rw [hpos]
  unfold substr
  simp

/-- The names `fileNames` derives from a folder whose last character is known and a path that
starts with a slash and has a dot. -/
theorem fileNames_of_concat (ys : List Char) (a : Char) (rest : List Char) (viewId : Nat)
    (hdot : '.' ∈ rest) (hpath : rest.length + 2 < 2 ^ 64) :
    fileNames (ys ++ [a]) ('/' :: rest) viewId =
      some
        (if a = '/' then
          { oldDesc := (ys ++ [a]) ++ upToFirst '.' rest ++ ['d', 'e', 's', 'c'],
            newDesc := (ys ++ [a]) ++ to_string viewId ++ ['.', 'd', 'e', 's', 'c'],
            oldFeat := (ys ++ [a]) ++ upToFirst '.' rest ++ ['f', 'e', 'a', 't'],
            newFeat := (ys ++ [a]) ++ to_string viewId ++ ['.', 'f', 'e', 'a', 't'] }
        else
          { oldDesc := (ys ++ [a]) ++ '/' :: upToFirst '.' rest ++ ['d', 'e', 's', 'c'],
            newDesc := (ys ++ [a]) ++ ['/'] ++ to_string viewId ++ ['.', 'd', 'e', 's', 'c'],
            oldFeat := (ys ++ [a]) ++ '/' :: upToFirst '.' rest ++ ['f', 'e', 'a', 't'],
            newFeat :=
              (ys ++ [a]) ++ ['/'] ++ to_string viewId ++ ['.', 'f', 'e', 'a', 't'] }) := by
  obtain ⟨i, hi, hlt, htake⟩ := findIdx_of_mem '.' rest hdot
  have hfind : find ('/' :: rest) '.' = i + 1 := by
    simp [find, findIdx, hi]
  have hmod : (i + 1 + 1) % 2 ^ 64 = i + 2 := by omega
  unfold fileNames
  rw [substr_last_of_concat ys a, hfind, hmod]
  by_cases ha : a = '/'
  · subst ha
    simp [substr, htake]
  · have hne : ¬ [a] = ['/'] := by simpa using ha
    simp [substr, htake, hne, ha]

/-- C21, as stated, fails for a folder name that itself ends with a slash, and for the empty
folder name: with `G = "feat/"` the names derived from `G` and from `G + "/"` differ, and the
old name derived from `G` is not `G` followed by the image path up to its first dot and
`"desc"`; with `G = ""` the derivation throws, while it succeeds for `G + "/"`. -/
theorem fileNames_differ_for_folder_ending_in_slash :
    fileNames "feat/".toList "/img.v2.jpg".toList 42
      ≠ fileNames ("feat/".toList ++ ['/']) "/img.v2.jpg".toList 42 ∧
    (fileNames "feat/".toList "/img.v2.jpg".toList 42).map (fun n => n.oldDesc)
      = some "feat/img.desc".toList ∧
    "feat/".toList ++ upToFirst '.' "/img.v2.jpg".toList ++ "desc".toList
      = "feat//img.desc".toList ∧
    fileNames [] "/img.v2.jpg".toList 42 = none ∧
    (fileNames ([] ++ ['/']) "/img.v2.jpg".toList 42).isSome = true := by
  decide

/-- C21, amended: for every non-empty features folder name `G` that does not end with a slash
and every view image path that begins with a slash and contains a dot (and is shorter than
`2^64`), passing the folder as `G` or as `G + "/"` yields the same four file names: the old
names are `G`, the image path up to and including its first dot, and `"desc"` / `"feat"`;
the new names are `G`, a slash, the decimal view index, and `".desc"` / `".feat"`. -/
theorem fileNames_same_with_or_without_slash (G rest : List Char) (viewId : Nat)
    (hG : G ≠ []) (hlast : G.getLast? ≠ some '/') (hdot : '.' ∈ rest)
    (hpath : rest.length + 2 < 2 ^ 64) :
    fileNames G ('/' :: rest) viewId =
      some
        { oldDesc := G ++ upToFirst '.' ('/' :: rest) ++ ['d', 'e', 's', 'c'],
          newDesc := G ++ ['/'] ++ to_string viewId ++ ['.', 'd', 'e', 's', 'c'],
          oldFeat := G ++ upToFirst '.' ('/' :: rest) ++ ['f', 'e', 'a', 't'],
          newFeat := G ++ ['/'] ++ to_string viewId ++ ['.', 'f', 'e', 'a', 't'] } ∧
    fileNames (G ++ ['/']) ('/' :: rest) viewId =
      some
        { oldDesc := G ++ upToFirst '.' ('/' :: rest) ++ ['d', 'e', 's', 'c'],
          newDesc := G ++ ['/'] ++ to_string viewId ++ ['.', 'd', 'e', 's', 'c'],
          oldFeat := G ++ upToFirst '.' ('/' :: rest) ++ ['f', 'e', 'a', 't'],
          newFeat := G ++ ['/'] ++ to_string viewId ++ ['.', 'f', 'e', 'a', 't'] } := by
  obtain ⟨ys, a, rfl⟩ : ∃ ys a, G = ys ++ [a] :=
    ⟨G.dropLast, G.getLast hG, (List.dropLast_append_getLast hG).symm⟩
  have ha : a ≠ '/' := by
    intro h
    apply hlast
    simp [h]
  have hup : upToFirst '.' ('/' :: rest) = '/' :: upToFirst '.' rest := by
    simp [upToFirst]
  constructor
  · rw [fileNames_of_concat ys a rest viewId hdot hpath, if_neg ha, hup]
  · rw [fileNames_of_concat (ys ++ [a]) '/' rest viewId hdot hpath, if_pos rfl, hup]
    simp

/-- Witness of amended C21: the folder `"feat"`, the image path `"/img.v2.jpg"`, the view
index `42`. -/
theorem fileNames_same_with_or_without_slash_witness :
    fileNames "feat".toList "/img.v2.jpg".toList 42 =
      some
        { oldDesc := "feat".toList ++ upToFirst '.' "/img.v2.jpg".toList ++ ['d', 'e', 's', 'c'],
          newDesc := "feat".toList ++ ['/'] ++ to_string 42 ++ ['.', 'd', 'e', 's', 'c'],
          oldFeat := "feat".toList ++ upToFirst '.' "/img.v2.jpg".toList ++ ['f', 'e', 'a', 't'],
          newFeat := "feat".toList ++ ['/'] ++ to_string 42 ++ ['.', 'f', 'e', 'a', 't'] } ∧
    fileNames ("feat".toList ++ ['/']) "/img.v2.jpg".toList 42 =
      some
        { oldDesc := "feat".toList ++ upToFirst '.' "/img.v2.jpg".toList ++ ['d', 'e', 's', 'c'],
          newDesc := "feat".toList ++ ['/'] ++ to_string 42 ++ ['.', 'd', 'e', 's', 'c'],
          oldFeat := "feat".toList ++ upToFirst '.' "/img.v2.jpg".toList ++ ['f', 'e', 'a', 't'],
          newFeat := "feat".toList ++ ['/'] ++ to_string 42 ++ ['.', 'f', 'e', 'a', 't'] } :=
  fileNames_same_with_or_without_slash "feat".toList "img.v2.jpg".toList 42
    (by decide) (by decide) (by decide) (by decide)

end convertUID
end aliceVision
